import Mathlib

/-!
Verification of the PlacementPipeline extraction-and-reconciliation core.

The Python sources under `app/services` (text_cleaner.py, regex_extractor.py,
gemini_extractor.py, langgraph_pipeline.py, email_pipeline.py) and the
cross-message merger of `app/api/v1/endpoints/debug.py` are shallowly embedded
below.  Pure Python functions become Lean functions over `String`/`List Char`;
Python `re` patterns are transcribed into a small regular-expression AST and run
by a fuel-bounded backtracking matcher that mirrors CPython `re` semantics
(leftmost search, ordered alternation, greedy/lazy quantifiers, capture
groups).  Python floats only ever hold small decimal constants in this code
(confidence scores n/8, CGPA bounds 0 and 10), where binary-float arithmetic is
exact, so they are modelled by `ℚ`.
-/

set_option maxRecDepth 10000

namespace Placement

/-! ### Python string helpers -/

/-- Python `\s`: the ASCII whitespace characters recognised by `str.strip`,
`\s` in `re`, and `str.split()` for the texts handled here. -/
def isPySpace (c : Char) : Bool :=
  c = ' ' || c = '\t' || c = '\n' || c = '\r' || c = '\x0b' || c = '\x0c'

/-- Python `str.strip()` on a character list. -/
def pyStripList (l : List Char) : List Char :=
  ((l.dropWhile isPySpace).reverse.dropWhile isPySpace).reverse

/-- Python `str.strip()`. -/
def pyStrip (s : String) : String := String.mk (pyStripList s.data)

/-- Python `str.lower()` (ASCII; all strings in the claims are ASCII). -/
def pyLower (s : String) : String := String.mk (s.data.map Char.toLower)

/-- Python `str.upper()` (ASCII). -/
def pyUpper (s : String) : String := String.mk (s.data.map Char.toUpper)

/-- Helper for `pyTitle`: the boolean records whether the previous character
was a cased (alphabetic) character. -/
def pyTitleAux : List Char → Bool → List Char
  | [], _ => []
  | c :: t, prevCased =>
    (if c.isAlpha then (if prevCased then c.toLower else c.toUpper) else c) ::
      pyTitleAux t c.isAlpha

/-- Python `str.title()`. -/
def pyTitle (s : String) : String := String.mk (pyTitleAux s.data false)

/-- `needle` is a prefix of `hay` (character lists). -/
def listPre : List Char → List Char → Bool
  | [], _ => true
  | _ :: _, [] => false
  | a :: as, b :: bs => a = b && listPre as bs

/-- Python `needle in hay` for strings. -/
def strContainsSub (hay needle : String) : Bool :=
  let rec go : List Char → Bool
    | [] => listPre needle.data []
    | c :: t => listPre needle.data (c :: t) || go t
  go hay.data

/-- Python `str.startswith`. -/
def strStarts (s pre : String) : Bool := listPre pre.data s.data

/-- Python `str.zfill(2)` for the day fields of `_month_to_date`. -/
def zfill2 (s : String) : String :=
  if s.length ≥ 2 then s else String.mk (List.replicate (2 - s.length) '0') ++ s

/-- Truthiness of an optional string, as Python `not x` sees a `str | None`
field: `None` and `""` are falsy. -/
def optTruthy : Option String → Bool
  | none => false
  | some s => s ≠ ""

/-- Python `float(...)` on a string matching `\d+\.?\d*`, as a rational. -/
def parseDecQ (s : String) : ℚ :=
  let ds := s.data
  let intPart := ds.takeWhile Char.isDigit
  let rest := ds.dropWhile Char.isDigit
  let fracPart := match rest with
    | '.' :: t => t.takeWhile Char.isDigit
    | _ => []
  let iv : ℕ := intPart.foldl (fun a c => a * 10 + (c.toNat - '0'.toNat)) 0
  let fv : ℕ := fracPart.foldl (fun a c => a * 10 + (c.toNat - '0'.toNat)) 0
  (iv : ℚ) + (fv : ℚ) / ((10 : ℚ) ^ fracPart.length)

/-! ### A small regular-expression engine

The AST mirrors the constructs used by the Python patterns of this repository.
`mrun` is a continuation-passing backtracking matcher: ordered alternation
tries the left branch first, `rep greedy` prefers the longest iteration count,
`rep lazy` the shortest, exactly as CPython's `re` backtracks.  The matcher
walks a zipper `(prev, rest)` over the subject so that `^`, `$` and `\b` can
inspect the neighbouring characters.  `fuel` bounds only the nesting depth of
the match; it is chosen far above the depth any of the transcribed patterns
can reach on a given subject, so exhaustion never occurs on them. -/

inductive Re where
  | eps : Re
  | cls (p : Char → Bool) : Re
  | cat (a b : Re) : Re
  | alt (a b : Re) : Re
  | rep (a : Re) (greedy : Bool) : Re
  | grp (n : Nat) (a : Re) : Re
  | bos : Re
  | eos : Re
  | wb : Re

namespace Re

/-- Structural size, used to compute a fuel bound. -/
def sz : Re → Nat
  | eps => 1
  | cls _ => 1
  | cat a b => a.sz + b.sz + 1
  | alt a b => a.sz + b.sz + 1
  | rep a _ => a.sz + 1
  | grp _ a => a.sz + 1
  | bos => 1
  | eos => 1
  | wb => 1

end Re

/-- Captures: group index paired with the captured characters. -/
abbrev Caps := List (Nat × String)

/-- A word character for `\b` (Python `\w` over ASCII). -/
def isWordChar (c : Char) : Bool := c.isAlphanum || c = '_'

/-- Python `$` with no MULTILINE flag: end of subject, or just before a final
newline. -/
def atEosPos : List Char → Bool
  | [] => true
  | ['\n'] => true
  | _ => false

/-- The backtracking matcher.  `prev` is the reversed already-consumed prefix,
`rest` the remainder; `k` is the success continuation. -/
def mrun {α} (fuel : Nat) (r : Re) (prev rest : List Char) (caps : Caps)
    (k : List Char → List Char → Caps → Option α) : Option α :=
  match fuel with
  | 0 => none
  | Nat.succ f =>
    match r with
    | .eps => k prev rest caps
    | .bos => if prev.isEmpty then k prev rest caps else none
    | .eos => if atEosPos rest then k prev rest caps else none
    | .wb =>
      let lw := match prev with | [] => false | c :: _ => isWordChar c
      let rw := match rest with | [] => false | c :: _ => isWordChar c
      if lw ≠ rw then k prev rest caps else none
    | .cls p =>
      match rest with
      | [] => none
      | c :: t => if p c then k (c :: prev) t caps else none
    | .cat a b => mrun f a prev rest caps (fun p' r' c' => mrun f b p' r' c' k)
    | .alt a b =>
      match mrun f a prev rest caps k with
      | some v => some v
      | none => mrun f b prev rest caps k
    | .rep a greedy =>
      let again := fun (p' r' : List Char) (c' : Caps) =>
        if r'.length < rest.length then mrun f (.rep a greedy) p' r' c' k
        else k p' r' c'
      if greedy then
        match mrun f a prev rest caps again with
        | some v => some v
        | none => k prev rest caps
      else
        match k prev rest caps with
        | some v => some v
        | none => mrun f a prev rest caps again
    | .grp n a =>
      mrun f a prev rest caps (fun p' r' c' =>
        k p' r'
          ((n, String.mk ((p'.take (p'.length - prev.length)).reverse)) :: c'))

/-- Fuel bound: far above the nesting depth reachable by any transcribed
pattern on the given remainder. -/
def fuelFor (r : Re) (rest : List Char) : Nat :=
  (r.sz + 2) * (rest.length + 2) + 64

/-- Result of a successful search: reversed prefix up to the match end, the
remainder after the match, the matched substring, and the captures. -/
structure MRes where
  pre : List Char
  rest : List Char
  matched : String
  caps : Caps

/-- Try to match `r` anchored at the current position. -/
def tryHere (r : Re) (prev rest : List Char) : Option MRes :=
  mrun (fuelFor r rest) r prev rest [] (fun p' r' c' =>
    some { pre := p', rest := r',
           matched := String.mk ((p'.take (p'.length - prev.length)).reverse),
           caps := c' })

/-- `re.search`: scan left to right for the first position admitting a match. -/
def searchFrom (r : Re) : List Char → List Char → Option MRes
  | prev, rest =>
    match tryHere r prev rest with
    | some m => some m
    | none =>
      match rest with
      | [] => none
      | c :: t => searchFrom r (c :: prev) t

/-- `re.search` on a string. -/
def reSearch (r : Re) (s : String) : Option MRes := searchFrom r [] s.data

/-- `re.match`: anchored at the start of the subject. -/
def reMatch (r : Re) (s : String) : Option MRes := tryHere r [] s.data

/-- Group lookup (`m.group(i)`); the transcribed converters only read groups
that participated in the match. -/
def grpGet (m : MRes) (n : Nat) : String :=
  match m.caps.find? (fun p => p.1 = n) with
  | some p => p.2
  | none => ""

/-- `re.findall` for a pattern without capture groups: the list of matched
substrings, scanning non-overlapping matches left to right. -/
def findAllAux (r : Re) (proj : MRes → String) :
    Nat → List Char → List Char → List String
  | 0, _, _ => []
  | Nat.succ f, prev, rest =>
    match searchFrom r prev rest with
    | none => []
    | some m =>
      if m.matched = "" then
        match m.rest with
        | [] => [proj m]
        | c :: t => proj m :: findAllAux r proj f (c :: m.pre) t
      else proj m :: findAllAux r proj f m.pre m.rest

/-- `re.findall` returning whole matches (pattern with no groups). -/
def reFindAll (r : Re) (s : String) : List String :=
  findAllAux r (fun m => m.matched) (s.length + 1) [] s.data

/-- `re.findall` returning group 1 (pattern with exactly one group). -/
def reFindAllG1 (r : Re) (s : String) : List String :=
  findAllAux r (fun m => grpGet m 1) (s.length + 1) [] s.data

/-- `re.sub(r, repl, s)`: replace every non-overlapping match. -/
def reSubAux (r : Re) (repl : String) : Nat → List Char → List Char → String
  | 0, _, rest => String.mk rest
  | Nat.succ f, prev, rest =>
    match searchFrom r prev rest with
    | none => String.mk rest
    | some m =>
      let before :=
        String.mk ((m.pre.drop (m.matched.length)).reverse.drop prev.length)
      if m.matched = "" then
        match m.rest with
        | [] => before ++ repl
        | c :: t => before ++ repl ++ String.mk [c] ++ reSubAux r repl f [] t
      else before ++ repl ++ reSubAux r repl f [] m.rest

/-- `re.sub` on a string. -/
def reSub (r : Re) (repl : String) (s : String) : String :=
  reSubAux r repl (s.length + 1) [] s.data

/-! #### Pattern-building helpers -/

/-- Case-sensitive literal character. -/
def rch (c : Char) : Re := .cls (fun x => x = c)

/-- Case-insensitive literal character (`re.IGNORECASE`). -/
def rchI (c : Char) : Re := .cls (fun x => x.toLower = c.toLower)

/-- Case-sensitive literal string. -/
def rstr (s : String) : Re := (s.data.map rch).foldr .cat .eps

/-- Case-insensitive literal string. -/
def rstrI (s : String) : Re := (s.data.map rchI).foldr .cat .eps

/-- Ordered alternation of a non-empty list (left first, as CPython). -/
def ralts : List Re → Re
  | [] => .eps
  | [r] => r
  | r :: t => .alt r (ralts t)

/-- Greedy `?`. -/
def ropt (r : Re) : Re := .alt r .eps

/-- Greedy `*`. -/
def rstar (r : Re) : Re := .rep r true

/-- Greedy `+`. -/
def rplus (r : Re) : Re := .cat r (.rep r true)

/-- Lazy `+?`. -/
def rplusL (r : Re) : Re := .cat r (.rep r false)

/-- Lazy `*?`. -/
def rstarL (r : Re) : Re := .rep r false

/-- Greedy `{1,2}`. -/
def rep12 (r : Re) : Re := .alt (.cat r r) r

/-- Greedy `{0,n}`. -/
def repAtMost (r : Re) : Nat → Re
  | 0 => .eps
  | Nat.succ n => .alt (.cat r (repAtMost r n)) .eps

/-- Greedy `{m,m+k}` written as `m` copies followed by `{0,k}`. -/
def repRange (r : Re) (m k : Nat) : Re :=
  (List.replicate m r).foldr .cat (repAtMost r k)

/-- `\d`. -/
def rdigit : Re := .cls Char.isDigit

/-- `\s`. -/
def rws : Re := .cls isPySpace

/-- `.` without DOTALL: any character except newline. -/
def rdot : Re := .cls (fun c => c ≠ '\n')

/-- Character class given by a membership list. -/
def rset (cs : List Char) : Re := .cls (fun c => cs.contains c)

/-- Order-preserving deduplication, as Python `list(dict.fromkeys(xs))`. -/
def firstDedupAux : List String → List String → List String
  | [], _ => []
  | a :: l, seen =>
    if a ∈ seen then firstDedupAux l seen
    else a :: firstDedupAux l (a :: seen)

/-- Python `list(dict.fromkeys(xs))`. -/
def firstDedup (l : List String) : List String := firstDedupAux l []

/-! ### regex_extractor.py -/

/-- `\|\|\s*([^|]+?)\s*(?:\|\||$)` (pattern 1 of `extract_company_from_subject`). -/
def companyP1 : Re :=
  .cat (rstr "||") (.cat (rstar rws) (.cat (.grp 1 (rplusL (.cls (fun c => c ≠ '|'))))
    (.cat (rstar rws) (.alt (rstr "||") .eos))))

/-- `\s*(Pvt\.?\s*Ltd\.?|Private\s*Limited|Inc\.?|LLC|LLP)$`, IGNORECASE: the
legal-entity suffix stripped by `re.sub` in patterns 1 and 5. -/
def suffixRe : Re :=
  .cat (rstar rws) (.cat (.grp 1 (ralts
    [ .cat (rstrI "pvt") (.cat (ropt (rch '.')) (.cat (rstar rws)
        (.cat (rstrI "ltd") (ropt (rch '.'))))),
      .cat (rstrI "private") (.cat (rstar rws) (rstrI "limited")),
      .cat (rstrI "inc") (ropt (rch '.')),
      rstrI "llc",
      rstrI "llp" ])) .eos)

/-- `[A-Za-z0-9\s\.]` under IGNORECASE (pattern 2's company class). -/
def clsWordSpDot : Re := .cls (fun c => c.isAlpha || c.isDigit || isPySpace c || c = '.')

/-- `^(Re:\s*)?([A-Z][A-Za-z0-9\s\.]+?)\s+(?:Campus|Internship|Placement|Recruitment|FTE)\s+(?:Drive|Test|Program)`, IGNORECASE. -/
def companyP2 : Re :=
  .cat .bos (.cat (ropt (.grp 1 (.cat (rstrI "re:") (rstar rws))))
    (.cat (.grp 2 (.cat (.cls Char.isAlpha) (rplusL clsWordSpDot)))
      (.cat (rplus rws)
        (.cat (ralts [rstrI "campus", rstrI "internship", rstrI "placement",
                      rstrI "recruitment", rstrI "fte"])
          (.cat (rplus rws) (ralts [rstrI "drive", rstrI "test", rstrI "program"]))))))

/-- `^([A-Z][A-Za-z0-9\s]+?)\s*[-–]\s*(?:Campus|Placement)` (case-sensitive). -/
def companyP3 : Re :=
  .cat .bos (.cat (.grp 1 (.cat (.cls Char.isUpper)
      (rplusL (.cls (fun c => c.isAlpha || c.isDigit || isPySpace c)))))
    (.cat (rstar rws) (.cat (rset ['-', '–'])
      (.cat (rstar rws) (ralts [rstr "Campus", rstr "Placement"])))))

/-- `(?:Drive|Recruitment)\s*[:\-]\s*([A-Z][A-Za-z0-9\s&.]+)` (case-sensitive). -/
def companyP4 : Re :=
  .cat (ralts [rstr "Drive", rstr "Recruitment"]) (.cat (rstar rws)
    (.cat (rset [':', '-']) (.cat (rstar rws)
      (.grp 1 (.cat (.cls Char.isUpper)
        (rplus (.cls (fun c => c.isAlpha || c.isDigit || isPySpace c || c = '&' || c = '.'))))))))

/-- `[A-Za-z0-9\s&.]` (patterns 5 and 6's company class). -/
def clsWordSpAmp : Re :=
  .cls (fun c => c.isAlpha || c.isDigit || isPySpace c || c = '&' || c = '.')

/-- `(?:drive|recruitment)\s+by\s+([A-Za-z][A-Za-z0-9\s&.]+?)(?:\s*[_\-]|$)`, IGNORECASE. -/
def companyP5 : Re :=
  .cat (ralts [rstrI "drive", rstrI "recruitment"]) (.cat (rplus rws)
    (.cat (rstrI "by") (.cat (rplus rws)
      (.cat (.grp 1 (.cat (.cls Char.isAlpha) (rplusL clsWordSpAmp)))
        (.alt (.cat (rstar rws) (rset ['_', '-'])) .eos)))))

/-- `(?:for|from|at)\s+([A-Z][A-Za-z0-9\s&.]+?)(?:\s*[\-_|]|$)`, IGNORECASE. -/
def companyP6 : Re :=
  .cat (ralts [rstrI "for", rstrI "from", rstrI "at"]) (.cat (rplus rws)
    (.cat (.grp 1 (.cat (.cls Char.isAlpha) (rplusL clsWordSpAmp)))
      (.alt (.cat (rstar rws) (rset ['-', '_', '|'])) .eos)))

/-- `extract_company_from_subject`: the six subject patterns tried in order;
each returns only when its guard passes, otherwise the next pattern runs. -/
def extract_company_from_subject (subject : String) : Option String :=
  if subject = "" then none
  else
    (match reSearch companyP1 subject with
     | some m =>
       let company := reSub suffixRe "" (pyStrip (grpGet m 1))
       if company ≠ "" then some (pyStrip company) else none
     | none => none) <|>
    (match reSearch companyP2 subject with
     | some m =>
       let company := pyStrip (grpGet m 2)
       if company ≠ "" && company.length > 2 then some company else none
     | none => none) <|>
    ((reSearch companyP3 subject).map (fun m => pyStrip (grpGet m 1))) <|>
    ((reSearch companyP4 subject).map (fun m => pyStrip (grpGet m 1))) <|>
    (match reSearch companyP5 subject with
     | some m =>
       let company := reSub suffixRe "" (pyStrip (grpGet m 1))
       if company ≠ "" && company.length > 2 then some (pyStrip company) else none
     | none => none) <|>
    (match reSearch companyP6 subject with
     | some m =>
       let company := pyStrip (grpGet m 1)
       if company ≠ "" && company.length > 2 then some company else none
     | none => none)

/-- `[A-Za-z\s]` (role patterns). -/
def clsAlphaSp : Re := .cls (fun c => c.isAlpha || isPySpace c)

/-- Role noun alternation `(?:Engineer|Developer|Analyst|Intern|Manager|Executive|Trainee)`. -/
def roleNouns : Re :=
  ralts [rstrI "engineer", rstrI "developer", rstrI "analyst", rstrI "intern",
         rstrI "manager", rstrI "executive", rstrI "trainee"]

/-- `(?:role|position|profile)\s*[:\-]?\s*([A-Za-z\s]+(?:Engineer|...|Trainee)[A-Za-z\s]*)`, IGNORECASE. -/
def roleP1 : Re :=
  .cat (ralts [rstrI "role", rstrI "position", rstrI "profile"]) (.cat (rstar rws)
    (.cat (ropt (rset [':', '-'])) (.cat (rstar rws)
      (.grp 1 (.cat (rplus clsAlphaSp) (.cat roleNouns (rstar clsAlphaSp)))))))

/-- `(?:hiring\s+for|looking\s+for|opening\s+for)\s+([A-Za-z\s]+(?:Engineer|Developer|Analyst|Intern)[A-Za-z\s]*)`, IGNORECASE. -/
def roleP2 : Re :=
  .cat (ralts
    [ .cat (rstrI "hiring") (.cat (rplus rws) (rstrI "for")),
      .cat (rstrI "looking") (.cat (rplus rws) (rstrI "for")),
      .cat (rstrI "opening") (.cat (rplus rws) (rstrI "for")) ])
    (.cat (rplus rws)
      (.grp 1 (.cat (rplus clsAlphaSp)
        (.cat (ralts [rstrI "engineer", rstrI "developer", rstrI "analyst", rstrI "intern"])
          (rstar clsAlphaSp)))))

/-- `((?:Software|Frontend|Backend|Full[\s-]?Stack|Data|ML|AI|QA|Test|DevOps)\s*(?:Engineer|Developer|Analyst|Intern))`, IGNORECASE. -/
def roleP3 : Re :=
  .grp 1 (.cat (ralts
    [ rstrI "software", rstrI "frontend", rstrI "backend",
      .cat (rstrI "full") (.cat (ropt (.cls (fun c => isPySpace c || c = '-'))) (rstrI "stack")),
      rstrI "data", rstrI "ml", rstrI "ai", rstrI "qa", rstrI "test", rstrI "devops" ])
    (.cat (rstar rws)
      (ralts [rstrI "engineer", rstrI "developer", rstrI "analyst", rstrI "intern"])))

/-- `(SDE|SWE|MTS|SET)\s*(?:Intern|I|II|III)?`, IGNORECASE. -/
def roleP4 : Re :=
  .cat (.grp 1 (ralts [rstrI "sde", rstrI "swe", rstrI "mts", rstrI "set"]))
    (.cat (rstar rws) (ropt (ralts [rstrI "intern", rstrI "i", rstrI "ii", rstrI "iii"])))

/-- `extract_role`: first pattern whose stripped capture is longer than 3
characters wins; the result is title-cased. -/
def extract_role (text : String) : Option String :=
  [roleP1, roleP2, roleP3, roleP4].findSome? (fun p =>
    match reSearch p text with
    | some m =>
      let role := pyStrip (grpGet m 1)
      if role.length > 3 then some (pyTitle role) else none
    | none => none)

/-- `\b(202[4-7])\s*(?:batch|passout|graduating|pass[\s-]?out)?`, IGNORECASE. -/
def batchP1 : Re :=
  .cat .wb (.cat (.grp 1 (.cat (rstr "202") (rset ['4', '5', '6', '7'])))
    (.cat (rstar rws) (ropt (ralts
      [ rstrI "batch", rstrI "passout", rstrI "graduating",
        .cat (rstrI "pass") (.cat (ropt (.cls (fun c => isPySpace c || c = '-')))
          (rstrI "out")) ]))))

/-- `batch\s*[:\-]?\s*(202[4-7])`, IGNORECASE. -/
def batchP2 : Re :=
  .cat (rstrI "batch") (.cat (rstar rws) (.cat (ropt (rset [':', '-'])) (.cat (rstar rws)
    (.grp 1 (.cat (rstr "202") (rset ['4', '5', '6', '7']))))))

/-- `extract_batch` over `f"{subject} {text}"`. -/
def extract_batch (text subject : String) : Option String :=
  let combined := subject ++ " " ++ text
  match reSearch batchP1 combined with
  | some m => some (grpGet m 1)
  | none => (reSearch batchP2 combined).map (fun m => grpGet m 1)

/-- `\bintern(?:ship)?\b` over the lower-cased combined text. -/
def internRe : Re := .cat .wb (.cat (rstr "intern") (.cat (ropt (rstr "ship")) .wb))

/-- `\b(?:fte|full[\s-]?time|permanent|ppo)\b` over the lower-cased combined text. -/
def fteRe : Re :=
  .cat .wb (.cat (ralts
    [ rstr "fte",
      .cat (rstr "full") (.cat (ropt (.cls (fun c => isPySpace c || c = '-'))) (rstr "time")),
      rstr "permanent", rstr "ppo" ]) .wb)

/-- `\bb\.?\s*tech\b.*\bm\.?\s*tech\b` over the lower-cased combined text. -/
def btechMtechRe : Re :=
  .cat .wb (.cat (rstr "b") (.cat (ropt (rch '.')) (.cat (rstar rws)
    (.cat (rstr "tech") (.cat .wb (.cat (rstar rdot)
      (.cat .wb (.cat (rstr "m") (.cat (ropt (rch '.')) (.cat (rstar rws)
        (.cat (rstr "tech") .wb)))))))))))

/-- `extract_drive_type`. -/
def extract_drive_type (text subject : String) : Option String :=
  let combined := pyLower (subject ++ " " ++ text)
  let hasIntern := (reSearch internRe combined).isSome
  let hasFte := (reSearch fteRe combined).isSome
  if hasIntern && hasFte then some "both"
  else if hasIntern then some "internship"
  else if hasFte then some "fte"
  else if (reSearch btechMtechRe combined).isSome then some "fte"
  else none

/-- The ordered month alternation `(Jan(?:uary)?|...|Dec(?:ember)?)`, IGNORECASE. -/
def monthAlt : Re :=
  ralts
    [ .cat (rstrI "jan") (ropt (rstrI "uary")),
      .cat (rstrI "feb") (ropt (rstrI "ruary")),
      .cat (rstrI "mar") (ropt (rstrI "ch")),
      .cat (rstrI "apr") (ropt (rstrI "il")),
      rstrI "may",
      .cat (rstrI "jun") (ropt (rstrI "e")),
      .cat (rstrI "jul") (ropt (rstrI "y")),
      .cat (rstrI "aug") (ropt (rstrI "ust")),
      .cat (rstrI "sep") (ropt (rstrI "tember")),
      .cat (rstrI "oct") (ropt (rstrI "ober")),
      .cat (rstrI "nov") (ropt (rstrI "ember")),
      .cat (rstrI "dec") (ropt (rstrI "ember")) ]

/-- `20\d{2}`. -/
def yearRe : Re := .cat (rstr "20") (.cat rdigit rdigit)

/-- `(\d{1,2})[/\-](\d{1,2})[/\-](20\d{2})`. -/
def dateNum : Re :=
  .cat (.grp 1 (rep12 rdigit)) (.cat (rset ['/', '-']) (.cat (.grp 2 (rep12 rdigit))
    (.cat (rset ['/', '-']) (.grp 3 yearRe))))

/-- `(\d{1,2})(?:st|nd|rd|th)?\s+(Month)\s+(20\d{2})`, IGNORECASE. -/
def dateOrd : Re :=
  .cat (.grp 1 (rep12 rdigit))
    (.cat (ropt (ralts [rstrI "st", rstrI "nd", rstrI "rd", rstrI "th"]))
      (.cat (rplus rws) (.cat (.grp 2 monthAlt) (.cat (rplus rws) (.grp 3 yearRe)))))

/-- `(Month)\s+(\d{1,2}),?\s+(20\d{2})`, IGNORECASE. -/
def dateMDY : Re :=
  .cat (.grp 1 monthAlt) (.cat (rplus rws) (.cat (.grp 2 (rep12 rdigit))
    (.cat (ropt (rch ',')) (.cat (rplus rws) (.grp 3 yearRe)))))

/-- `_month_to_date`: month-name lookup with default `'01'`. -/
def monthToDate (day month year : String) : String :=
  let m3 := pyLower (String.mk (month.data.take 3))
  let mn :=
    if m3 = "jan" then "01" else if m3 = "feb" then "02"
    else if m3 = "mar" then "03" else if m3 = "apr" then "04"
    else if m3 = "may" then "05" else if m3 = "jun" then "06"
    else if m3 = "jul" then "07" else if m3 = "aug" then "08"
    else if m3 = "sep" then "09" else if m3 = "oct" then "10"
    else if m3 = "nov" then "11" else if m3 = "dec" then "12"
    else "01"
  year ++ "-" ++ mn ++ "-" ++ zfill2 day

/-- The three `(pattern, converter)` pairs of `extract_dates`, in order. -/
def dateTriples : List (Re × (MRes → String)) :=
  [ (dateNum, fun m => grpGet m 3 ++ "-" ++ zfill2 (grpGet m 2) ++ "-" ++ zfill2 (grpGet m 1)),
    (dateOrd, fun m => monthToDate (grpGet m 1) (grpGet m 2) (grpGet m 3)),
    (dateMDY, fun m => monthToDate (grpGet m 2) (grpGet m 1) (grpGet m 3)) ]

/-- `(?:deadline|last\s*date|apply\s*by|register\s*by|before)\s*[:\-]?\s*`, IGNORECASE. -/
def deadlineLead1 : Re :=
  .cat (ralts
    [ rstrI "deadline",
      .cat (rstrI "last") (.cat (rstar rws) (rstrI "date")),
      .cat (rstrI "apply") (.cat (rstar rws) (rstrI "by")),
      .cat (rstrI "register") (.cat (rstar rws) (rstrI "by")),
      rstrI "before" ])
    (.cat (rstar rws) (.cat (ropt (rset [':', '-'])) (rstar rws)))

/-- `(?:registration|application)\s*(?:deadline|closes?)\s*[:\-]?\s*`, IGNORECASE. -/
def deadlineLead2 : Re :=
  .cat (ralts [rstrI "registration", rstrI "application"]) (.cat (rstar rws)
    (.cat (ralts [rstrI "deadline", .cat (rstrI "close") (ropt (rchI 's'))])
      (.cat (rstar rws) (.cat (ropt (rset [':', '-'])) (rstar rws)))))

/-- `(?:drive\s*date|interview\s*date|scheduled\s*on|on\s*date)\s*[:\-]?\s*`, IGNORECASE. -/
def driveLead1 : Re :=
  .cat (ralts
    [ .cat (rstrI "drive") (.cat (rstar rws) (rstrI "date")),
      .cat (rstrI "interview") (.cat (rstar rws) (rstrI "date")),
      .cat (rstrI "scheduled") (.cat (rstar rws) (rstrI "on")),
      .cat (rstrI "on") (.cat (rstar rws) (rstrI "date")) ])
    (.cat (rstar rws) (.cat (ropt (rset [':', '-'])) (rstar rws)))

/-- Result of `extract_dates`. -/
structure DatesRes where
  drive_date : Option String
  registration_deadline : Option String
deriving Repr, DecidableEq

/-- First date (by pattern order) found after a given lead. -/
def firstDateAfter (lead : Re) (text : String) : Option String :=
  dateTriples.findSome? (fun pc => (reSearch (.cat lead pc.1) text).map pc.2)

/-- `extract_dates`: deadline via the two deadline leads, drive date via the
drive lead, then the fallback that takes the first date found anywhere as the
deadline. -/
def extract_dates (text : String) : DatesRes :=
  let deadline := [deadlineLead1, deadlineLead2].findSome? (fun l => firstDateAfter l text)
  let ddate := [driveLead1].findSome? (fun l => firstDateAfter l text)
  let deadline :=
    match deadline with
    | some d => some d
    | none => dateTriples.findSome? (fun pc => (reSearch pc.1 text).map pc.2)
  { drive_date := ddate, registration_deadline := deadline }

/-- `\b(CSE|CS|IT|ECE|EE|EEE|MECH|ME|CIVIL|CE|AI|ML|DS|AIML)\b` (run on the
upper-cased text, so case-sensitive literals). -/
def branchRe : Re :=
  .cat .wb (.cat (.grp 1 (ralts
    [ rstr "CSE", rstr "CS", rstr "IT", rstr "ECE", rstr "EE", rstr "EEE",
      rstr "MECH", rstr "ME", rstr "CIVIL", rstr "CE", rstr "AI", rstr "ML",
      rstr "DS", rstr "AIML" ])) .wb)

/-- `all\s*branch(?:es)?`, IGNORECASE. -/
def allBranchRe : Re :=
  .cat (rstrI "all") (.cat (rstar rws) (.cat (rstrI "branch") (ropt (rstrI "es"))))

/-- `extract_branches`. -/
def extract_branches (text : String) : Option String :=
  let found := reFindAllG1 branchRe (pyUpper text)
  if found ≠ [] then some (String.intercalate ", " (firstDedup found))
  else if (reSearch allBranchRe text).isSome then some "All Branches"
  else none

/-- `\d+\.?\d*`. -/
def numLoose : Re := .cat (rplus rdigit) (.cat (ropt (rch '.')) (rstar rdigit))

/-- `(?:cgpa|cg|gpa)`. -/
def cgpaKw : Re := ralts [rstrI "cgpa", rstrI "cg", rstrI "gpa"]

/-- `(?:and\s*above|above|\+)?`. -/
def aboveOpt : Re :=
  ropt (ralts [.cat (rstrI "and") (.cat (rstar rws) (rstrI "above")),
               rstrI "above", rch '+'])

/-- `(?:cgpa|cg|gpa)\s*[:\-]?\s*(\d+\.?\d*)\s*(?:and\s*above|above|\+)?`, IGNORECASE. -/
def cgpaP1 : Re :=
  .cat cgpaKw (.cat (rstar rws) (.cat (ropt (rset [':', '-'])) (.cat (rstar rws)
    (.cat (.grp 1 numLoose) (.cat (rstar rws) aboveOpt)))))

/-- `minimum\s*(?:cgpa|cg|gpa)\s*[:\-]?\s*(\d+\.?\d*)`, IGNORECASE. -/
def cgpaP2 : Re :=
  .cat (rstrI "minimum") (.cat (rstar rws) (.cat cgpaKw (.cat (rstar rws)
    (.cat (ropt (rset [':', '-'])) (.cat (rstar rws) (.grp 1 numLoose))))))

/-- `(\d+\.?\d*)\s*(?:cgpa|cg|gpa)\s*(?:and\s*above|above|\+)?`, IGNORECASE. -/
def cgpaP3 : Re :=
  .cat (.grp 1 numLoose) (.cat (rstar rws) (.cat cgpaKw (.cat (rstar rws) aboveOpt)))

/-- `extract_cgpa`: first pattern (in order) whose captured value lies in
`(0, 10]` wins; an out-of-range capture falls through to the next pattern. -/
def extract_cgpa (text : String) : Option ℚ :=
  [cgpaP1, cgpaP2, cgpaP3].findSome? (fun p =>
    match reSearch p text with
    | some m =>
      let cgpa := parseDecQ (grpGet m 1)
      if 0 < cgpa ∧ cgpa ≤ 10 then some cgpa else none
    | none => none)

/-- `\d+(?:\.\d+)?`. -/
def numDec : Re := .cat (rplus rdigit) (ropt (.cat (rch '.') (rplus rdigit)))

/-- `\d+(?:,\d+)*`. -/
def numComma : Re := .cat (rplus rdigit) (rstar (.cat (rch ',') (rplus rdigit)))

/-- `(?:\s*[-–]\s*(?:₹?\s*)?\d+(?:\.\d+)?)?` (the optional range tail). -/
def rangeOpt : Re :=
  ropt (.cat (rstar rws) (.cat (rset ['-', '–']) (.cat (rstar rws)
    (.cat (ropt (.cat (ropt (rch '₹')) (rstar rws))) numDec))))

/-- `(?:ctc|package|salary|compensation)\s*[:\-]?\s*(₹?\s*\d+(?:\.\d+)?(?:...)?\s*(?:lpa|lakhs?)?)`, IGNORECASE. -/
def ctcP1 : Re :=
  .cat (ralts [rstrI "ctc", rstrI "package", rstrI "salary", rstrI "compensation"])
    (.cat (rstar rws) (.cat (ropt (rset [':', '-'])) (.cat (rstar rws)
      (.grp 1 (.cat (ropt (rch '₹')) (.cat (rstar rws) (.cat numDec (.cat rangeOpt
        (.cat (rstar rws)
          (ropt (ralts [rstrI "lpa", .cat (rstrI "lakh") (ropt (rchI 's'))])))))))))))

/-- `l\.?p\.?a\.?`. -/
def lpaDots : Re :=
  .cat (rchI 'l') (.cat (ropt (rch '.')) (.cat (rchI 'p') (.cat (ropt (rch '.'))
    (.cat (rchI 'a') (ropt (rch '.'))))))

/-- `(₹?\s*\d+(?:\.\d+)?(?:...)?\s*(?:lpa|lakhs?\s*per\s*annum|l\.?p\.?a\.?))`, IGNORECASE. -/
def ctcP2 : Re :=
  .grp 1 (.cat (ropt (rch '₹')) (.cat (rstar rws) (.cat numDec (.cat rangeOpt
    (.cat (rstar rws) (ralts
      [ rstrI "lpa",
        .cat (rstrI "lakh") (.cat (ropt (rchI 's')) (.cat (rstar rws)
          (.cat (rstrI "per") (.cat (rstar rws) (rstrI "annum"))))),
        lpaDots ]))))))

/-- `per\s*month`. -/
def perMonthRe : Re := .cat (rstrI "per") (.cat (rstar rws) (rstrI "month"))

/-- `\/\s*month`. -/
def slashMonthRe : Re := .cat (rch '/') (.cat (rstar rws) (rstrI "month"))

/-- `p\.?m\.?`. -/
def pmDots : Re := .cat (rchI 'p') (.cat (ropt (rch '.')) (.cat (rchI 'm') (ropt (rch '.'))))

/-- `(?:stipend)\s*[:\-]?\s*(₹?\s*\d+(?:,\d+)*\s*(?:per\s*month|\/\s*month|p\.?m\.?))`, IGNORECASE. -/
def ctcP3 : Re :=
  .cat (rstrI "stipend") (.cat (rstar rws) (.cat (ropt (rset [':', '-']))
    (.cat (rstar rws) (.grp 1 (.cat (ropt (rch '₹')) (.cat (rstar rws) (.cat numComma
      (.cat (rstar rws) (ralts [perMonthRe, slashMonthRe, pmDots])))))))))

/-- `(₹?\s*\d+(?:,\d+)*\s*(?:per\s*month|\/\s*month))`, IGNORECASE. -/
def ctcP4 : Re :=
  .grp 1 (.cat (ropt (rch '₹')) (.cat (rstar rws) (.cat numComma
    (.cat (rstar rws) (ralts [perMonthRe, slashMonthRe])))))

/-- `(₹\s*\d+(?:,\d+)*\s*\/\s*month)`, IGNORECASE. -/
def ctcP5 : Re :=
  .grp 1 (.cat (rch '₹') (.cat (rstar rws) (.cat numComma (.cat (rstar rws) slashMonthRe))))

/-- `\s+` (the whitespace-normalising `re.sub` applied to each CTC match). -/
def wsRun : Re := rplus rws

/-- `extract_ctc`: one search per pattern; LPA-style matches are preferred over
monthly figures; otherwise the first match wins. -/
def extract_ctc (text : String) : Option String :=
  let all_matches := [ctcP1, ctcP2, ctcP3, ctcP4, ctcP5].filterMap (fun p =>
    (reSearch p text).map (fun m => reSub wsRun " " (pyStrip (grpGet m 1))))
  match all_matches.find? (fun m =>
      strContainsSub (pyLower m) "lpa" || strContainsSub (pyLower m) "lakhs") with
  | some m => some m
  | none => all_matches.head?

/-- The fixed city list of `extract_location`, in source order. -/
def cityList : List String :=
  [ "Bangalore", "Bengaluru", "Hyderabad", "Chennai", "Mumbai", "Delhi",
    "Pune", "Noida", "Gurgaon", "Gurugram", "Kolkata", "Ahmedabad",
    "Bhubaneswar", "Jaipur", "Kochi", "Thiruvananthapuram", "Coimbatore",
    "Chandigarh", "Lucknow", "Indore", "Nagpur", "Visakhapatnam" ]

/-- `\b(remote|work\s*from\s*home|wfh|hybrid)\b`, IGNORECASE. -/
def remoteRe : Re :=
  .cat .wb (.cat (.grp 1 (ralts
    [ rstrI "remote",
      .cat (rstrI "work") (.cat (rstar rws) (.cat (rstrI "from") (.cat (rstar rws)
        (rstrI "home")))),
      rstrI "wfh", rstrI "hybrid" ])) .wb)

/-- `(?:job\s*location|work\s*location|location)\s*[:\-]\s*([A-Za-z][A-Za-z\s,]{2,30})`, IGNORECASE. -/
def locLabelRe : Re :=
  .cat (ralts
    [ .cat (rstrI "job") (.cat (rstar rws) (rstrI "location")),
      .cat (rstrI "work") (.cat (rstar rws) (rstrI "location")),
      rstrI "location" ])
    (.cat (rstar rws) (.cat (rset [':', '-']) (.cat (rstar rws)
      (.grp 1 (.cat (.cls Char.isAlpha)
        (repRange (.cls (fun c => c.isAlpha || isPySpace c || c = ',')) 2 28))))))

/-- `extract_location`: city list first, then remote markers, then the
`Location:` label pattern with its false-positive blacklist. -/
def extract_location (text : String) : Option String :=
  match cityList.findSome? (fun city =>
      if (reSearch (.cat .wb (.cat (rstrI city) .wb)) text).isSome then some city
      else none) with
  | some city => some city
  | none =>
    if (reSearch remoteRe text).isSome then some "Remote"
    else
      match reSearch locLabelRe text with
      | some m =>
        let loc := pyStrip (grpGet m 1)
        if ¬ (["ment officer", "ment offers", "placement"].contains (pyLower loc)) then
          some (pyTitle loc)
        else none
      | none => none

/-- `https?://[^\s<>"\']+|www\.[^\s<>"\']+`, IGNORECASE. -/
def urlRe : Re :=
  .alt
    (.cat (rstrI "http") (.cat (ropt (rchI 's')) (.cat (rstr "://")
      (rplus (.cls (fun c => ¬ (isPySpace c || c = '<' || c = '>' || c = '"' || c = '\'')))))))
    (.cat (rstrI "www.")
      (rplus (.cls (fun c => ¬ (isPySpace c || c = '<' || c = '>' || c = '"' || c = '\'')))))

/-- The excluded social domains of `extract_registration_link`. -/
def excludedDomains : List String :=
  ["linkedin.com/in/", "twitter.com", "facebook.com", "instagram.com"]

/-- A URL is excluded when its lower-cased form contains an excluded domain. -/
def urlExcluded (u : String) : Bool :=
  excludedDomains.any (fun d => strContainsSub (pyLower u) d)

/-- A URL carries an application-intent keyword. -/
def urlHasKw (u : String) : Bool :=
  ["register", "apply", "form", "career", "job", "recruit"].any
    (fun k => strContainsSub (pyLower u) k)

/-- `extract_registration_link`. -/
def extract_registration_link (text : String) : Option String :=
  let urls := reFindAll urlRe text
  match urls.find? (fun u => ¬ urlExcluded u && urlHasKw u) with
  | some u => some u
  | none => urls.find? (fun u => ¬ urlExcluded u)

/-- The record built by `extract_all_fields` (a Python dict with these keys). -/
structure RegexData where
  company_name : Option String
  role : Option String
  drive_type : Option String
  batch : Option String
  drive_date : Option String
  registration_deadline : Option String
  eligible_branches : Option String
  min_cgpa : Option ℚ
  ctc_or_stipend : Option String
  job_location : Option String
  registration_link : Option String
  confidence_score : ℚ
  extraction_method : String
deriving Repr, DecidableEq

/-- The number of non-null fields of the record, excluding `confidence_score`
and `extraction_method` — exactly the count the source's comprehension takes. -/
def regexNonNull (r : RegexData) : Nat :=
  (if r.company_name.isSome then 1 else 0) + (if r.role.isSome then 1 else 0) +
  (if r.drive_type.isSome then 1 else 0) + (if r.batch.isSome then 1 else 0) +
  (if r.drive_date.isSome then 1 else 0) +
  (if r.registration_deadline.isSome then 1 else 0) +
  (if r.eligible_branches.isSome then 1 else 0) +
  (if r.min_cgpa.isSome then 1 else 0) +
  (if r.ctc_or_stipend.isSome then 1 else 0) +
  (if r.job_location.isSome then 1 else 0) +
  (if r.registration_link.isSome then 1 else 0)

/-- `extract_all_fields`. -/
def extract_all_fields (text subject : String) : RegexData :=
  let dates := extract_dates text
  let r : RegexData :=
    { company_name := extract_company_from_subject subject
      role := extract_role text
      drive_type := extract_drive_type text subject
      batch := extract_batch text subject
      drive_date := dates.drive_date
      registration_deadline := dates.registration_deadline
      eligible_branches := extract_branches text
      min_cgpa := extract_cgpa text
      ctc_or_stipend := extract_ctc text
      job_location := extract_location text
      registration_link := extract_registration_link text
      confidence_score := 0
      extraction_method := "regex" }
  { r with confidence_score := min ((regexNonNull r : ℚ) / 8) 1 }

/-! ### gemini_extractor.py

`extract_with_gemini` performs I/O against the Gemini service.  The embedding
takes the service interaction's outcome as a parameter: `none` stands for any
of the failure paths the function collapses to its all-null default response
(library not installed, `GOOGLE_API_KEY` missing, API exception,
`json.JSONDecodeError`), and `some j` for a successfully parsed JSON object,
whose recognised keys are exactly the fields below. -/

/-- A successfully parsed service response: the eleven substantive keys plus
the `extraction_error` key, each possibly absent/null. -/
structure GeminiJson where
  company_name : Option String
  role : Option String
  drive_type : Option String
  batch : Option String
  drive_date : Option String
  registration_deadline : Option String
  eligible_branches : Option String
  min_cgpa : Option ℚ
  ctc_or_stipend : Option String
  job_location : Option String
  registration_link : Option String
  extraction_error : Option String
deriving Repr, DecidableEq

/-- The dictionary `extract_with_gemini` returns. -/
structure GeminiData where
  company_name : Option String
  role : Option String
  drive_type : Option String
  batch : Option String
  drive_date : Option String
  registration_deadline : Option String
  eligible_branches : Option String
  min_cgpa : Option ℚ
  ctc_or_stipend : Option String
  job_location : Option String
  registration_link : Option String
  confidence_score : ℚ
  extraction_error : Option String
deriving Repr, DecidableEq

/-- The all-null default response with `confidence_score` 0. -/
def geminiDefault (err : Option String) : GeminiData :=
  { company_name := none, role := none, drive_type := none, batch := none,
    drive_date := none, registration_deadline := none, eligible_branches := none,
    min_cgpa := none, ctc_or_stipend := none, job_location := none,
    registration_link := none, confidence_score := 0, extraction_error := err }

/-- Count of non-null fields of the result, excluding `confidence_score` and
`extraction_error` (the comprehension of lines 161–162). -/
def geminiNonNull (g : GeminiData) : Nat :=
  (if g.company_name.isSome then 1 else 0) + (if g.role.isSome then 1 else 0) +
  (if g.drive_type.isSome then 1 else 0) + (if g.batch.isSome then 1 else 0) +
  (if g.drive_date.isSome then 1 else 0) +
  (if g.registration_deadline.isSome then 1 else 0) +
  (if g.eligible_branches.isSome then 1 else 0) +
  (if g.min_cgpa.isSome then 1 else 0) +
  (if g.ctc_or_stipend.isSome then 1 else 0) +
  (if g.job_location.isSome then 1 else 0) +
  (if g.registration_link.isSome then 1 else 0)

/-- `extract_with_gemini`, parametrised by the service outcome.  On success the
parsed keys overwrite the defaults and `confidence_score` is recomputed as
`min(non_null / 8.0, 1.0)`. -/
def extract_with_gemini (outcome : Option GeminiJson) : GeminiData :=
  match outcome with
  | none => geminiDefault (some "Gemini unavailable or failed")
  | some j =>
    let r : GeminiData :=
      { company_name := j.company_name, role := j.role, drive_type := j.drive_type,
        batch := j.batch, drive_date := j.drive_date,
        registration_deadline := j.registration_deadline,
        eligible_branches := j.eligible_branches, min_cgpa := j.min_cgpa,
        ctc_or_stipend := j.ctc_or_stipend, job_location := j.job_location,
        registration_link := j.registration_link, confidence_score := 0,
        extraction_error := j.extraction_error }
    { r with confidence_score := min ((geminiNonNull r : ℚ) / 8) 1 }

/-- The dictionary `validate_extracted_data` returns: the input keys plus
`needs_review` and `validation_errors`. -/
structure ValidatedData where
  company_name : Option String
  role : Option String
  drive_type : Option String
  batch : Option String
  drive_date : Option String
  registration_deadline : Option String
  eligible_branches : Option String
  min_cgpa : Option ℚ
  ctc_or_stipend : Option String
  job_location : Option String
  registration_link : Option String
  confidence_score : ℚ
  extraction_method : String
  needs_review : Bool
  validation_errors : List String
deriving Repr, DecidableEq

/-- Python `str.replace` (all non-overlapping occurrences, left to right). -/
def strReplaceAux (old new : List Char) : Nat → List Char → List Char
  | 0, s => s
  | Nat.succ f, s =>
    match s with
    | [] => []
    | c :: t =>
      if listPre old s then new ++ strReplaceAux old new f (s.drop old.length)
      else c :: strReplaceAux old new f t

/-- Python `str.replace(old, new)` for non-empty `old`. -/
def strReplace (s old new : String) : String :=
  String.mk (strReplaceAux old.data new.data (s.length + 1) s.data)

/-- `validate_extracted_data`, step for `eligible_branches`: upper-case, then
canonicalize the three long-form names. -/
def canonBranches (b : String) : String :=
  let branches := pyUpper b
  let branches := strReplace branches "COMPUTER SCIENCE" "CSE"
  let branches := strReplace branches "INFORMATION TECHNOLOGY" "IT"
  strReplace branches "ELECTRONICS" "ECE"

/-- `validate_extracted_data`.  The steps run in source order: required-field
check (sets `needs_review` and the first error), company-name normalisation,
CGPA range check, URL scheme check, drive-type normalisation, role strip,
branch canonicalisation; the error list accumulates in that order. -/
def validate_extracted_data (d : RegexData) : ValidatedData :=
  let missing := ! optTruthy d.company_name
  let company :=
    if optTruthy d.company_name then d.company_name.map (fun c => pyTitle (pyStrip c))
    else d.company_name
  let badCgpa : Bool :=
    match d.min_cgpa with
    | some q => decide (q < 0) || decide (q > 10)
    | none => false
  let cgpa :=
    match d.min_cgpa with
    | some q => if q < 0 ∨ q > 10 then none else some q
    | none => none
  let badLink : Bool :=
    match d.registration_link with
    | some url => decide (url ≠ "") && ! (strStarts url "http://" || strStarts url "https://")
    | none => false
  let link :=
    match d.registration_link with
    | some url =>
      if url ≠ "" ∧ ¬ (strStarts url "http://" ∨ strStarts url "https://") then none
      else some url
    | none => none
  let dtype :=
    if optTruthy d.drive_type then
      match d.drive_type with
      | some raw =>
        let dt := pyStrip (pyLower raw)
        if dt = "internship" ∨ dt = "fte" ∨ dt = "both" then some raw
        else if strContainsSub dt "intern" then some "internship"
        else if strContainsSub dt "full" || strContainsSub dt "fte" then some "fte"
        else none
      | none => none
    else d.drive_type
  let role := if optTruthy d.role then d.role.map pyStrip else d.role
  let branches :=
    if optTruthy d.eligible_branches then d.eligible_branches.map canonBranches
    else d.eligible_branches
  { company_name := company, role := role, drive_type := dtype, batch := d.batch,
    drive_date := d.drive_date, registration_deadline := d.registration_deadline,
    eligible_branches := branches, min_cgpa := cgpa,
    ctc_or_stipend := d.ctc_or_stipend, job_location := d.job_location,
    registration_link := link, confidence_score := d.confidence_score,
    extraction_method := d.extraction_method, needs_review := missing,
    validation_errors :=
      (if missing then ["Missing company_name"] else []) ++
      (if badCgpa then ["Invalid CGPA range"] else []) ++
      (if badLink then ["Invalid registration link"] else []) }

/-- An existing drive row as the deduplication code reads it
(`ExistingDriveSummary`). -/
structure DriveSummary where
  company_name : Option String
  role : Option String
  batch : Option String
  registration_deadline : Option String
deriving Repr, DecidableEq

/-- The body of `check_duplicate`'s loop for one existing drive. -/
def driveMatches (newCompany newRole : String) (newDeadline : Option String)
    (drive : DriveSummary) : Bool :=
  let existingCompany := pyStrip (pyLower ((drive.company_name).getD ""))
  let existingRole := pyStrip (pyLower ((drive.role).getD ""))
  let existingDeadline := drive.registration_deadline
  existingCompany = newCompany &&
    (existingRole = newRole || newRole = "" || existingRole = "") &&
    (existingDeadline = newDeadline || ¬ optTruthy newDeadline)

/-- The `for drive in existing_drives` loop of `check_duplicate`: early return
on the first matching existing drive. -/
def dupLoop (newCompany newRole : String) (newDeadline : Option String) :
    List DriveSummary → Bool
  | [] => false
  | d :: rest =>
    if driveMatches newCompany newRole newDeadline d then true
    else dupLoop newCompany newRole newDeadline rest

/-- `check_duplicate`. -/
def check_duplicate (extracted : ValidatedData) (existing : List DriveSummary) : Bool :=
  if ¬ optTruthy extracted.company_name then false
  else
    dupLoop (pyStrip (pyLower ((extracted.company_name).getD "")))
      (pyStrip (pyLower ((extracted.role).getD "")))
      extracted.registration_deadline existing

/-! ### text_cleaner.py

`html_to_text` parses markup through BeautifulSoup, an external library; its
tag traversal is modelled by the parameter `soupText` (the text the soup
yields after the link/br/p rewriting).  The guard on empty input and the
whitespace normalisation around it are the source's own. -/

/-- `[ \t]+`. -/
def spTabRun : Re := rplus (rset [' ', '\t'])

/-- `\n\s*\n`. -/
def nlWsNl : Re := .cat (rch '\n') (.cat (rstar rws) (rch '\n'))

/-- `\n{3,}`. -/
def nl3Run : Re := .cat (rch '\n') (.cat (rch '\n') (.cat (rch '\n') (rstar (rch '\n'))))

/-- `html_to_text`, with the BeautifulSoup traversal abstracted as `soupText`. -/
def html_to_text (soupText : String → String) (raw_html : String) : String :=
  if raw_html = "" then ""
  else
    let text := soupText raw_html
    let text := reSub spTabRun " " text
    let text := reSub nlWsNl "\n\n" text
    let text := reSub nl3Run "\n\n" text
    pyStrip text

/-- The signature patterns (matched with `re.match` against the lower-cased
stripped line). -/
def signatureRes : List Re :=
  [ .cat (rstrI "thanks") (.cat (rstar rws) (.cat (ropt (ralts [rch '&', rstrI "and"]))
      (.cat (rstar rws) (.cat (rstrI "regard") (.cat (ropt (rchI 's'))
        (.cat (rstar rdot) .eos)))))),
    .cat (rstrI "best") (.cat (rstar rws) (.cat (rstrI "regard") (.cat (ropt (rchI 's'))
      (.cat (rstar rdot) .eos)))),
    .cat (rstrI "warm") (.cat (rstar rws) (.cat (rstrI "regard") (.cat (ropt (rchI 's'))
      (.cat (rstar rdot) .eos)))),
    .cat (rstrI "kind") (.cat (rstar rws) (.cat (rstrI "regard") (.cat (ropt (rchI 's'))
      (.cat (rstar rdot) .eos)))),
    .cat (rstrI "regards") (.cat (ropt (rch ',')) (.cat (rstar rws) .eos)),
    .cat (rstrI "thanking") (.cat (rstar rws) (.cat (rstrI "you") (.cat (rstar rdot) .eos))),
    .cat (rstrI "sincerely") (.cat (rstar rdot) .eos),
    .cat (rstrI "cheers") (.cat (rstar rdot) .eos) ]

/-- The disclaimer patterns (matched with `re.search`). -/
def disclaimerRes : List Re :=
  [ .cat (rstrI "this") (.cat (rstar rws) (.cat (ralts
      [ .cat (rchI 'e') (.cat (ropt (rch '-')) (rstrI "mail")), rstrI "message" ])
      (.cat (rstar rws) (.cat (ropt (.cat (rstrI "is") (rstar rws)))
        (.cat (ralts [rstrI "intended", rstrI "confidential"]) (rstar rdot)))))),
    .cat (rstrI "disclaimer") (.cat (rstar rdot) .eos),
    .cat (rstrI "this") (.cat (rstar rws) (.cat (rstrI "communication") (.cat (rstar rws)
      (.cat (rstrI "is") (.cat (rstar rws) (.cat (rstrI "confidential") (rstar rdot))))))),
    .cat (rstrI "if") (.cat (rstar rws) (.cat (rstrI "you") (.cat (rstar rws)
      (.cat (rstrI "are") (.cat (rstar rws) (.cat (rstrI "not") (.cat (rstar rws)
        (.cat (rstrI "the") (.cat (rstar rws) (.cat (rstrI "intended")
          (.cat (rstar rws) (.cat (rstrI "recipient") (rstar rdot))))))))))))),
    .cat (rstrI "privileged") (.cat (rstar rws) (.cat (rstrI "and") (.cat (rstar rws)
      (.cat (rstrI "confidential") (rstar rdot))))) ]

/-- The quoted-reply patterns (matched with `re.match`). -/
def replyRes : List Re :=
  [ .cat .bos (.cat (rstrI "on") (.cat (rplus rws) (.cat (rplus rdot)
      (.cat (rstrI "wrote:") (.cat (rstar rdot) .eos))))),
    .cat .bos (.cat (rstrI "from:") (.cat (rplus rws) (.cat (rplus rdot) .eos))),
    .cat .bos (.cat (rstrI "sent:") (.cat (rplus rws) (.cat (rplus rdot) .eos))),
    .cat .bos (.cat (rstrI "to:") (.cat (rplus rws) (.cat (rplus rdot) .eos))),
    .cat .bos (.cat (rstrI "cc:") (.cat (rplus rws) (.cat (rplus rdot) .eos))),
    .cat .bos (.cat (rstrI "subject:") (.cat (rplus rws) (.cat (rplus rdot) .eos))),
    .cat .bos (.cat (rplus (rch '>')) (.cat (rstar rws) (.cat (rstar rdot) .eos))),
    .cat .bos (.cat (rch '-') (.cat (rch '-') (.cat (rch '-') (.cat (rstar (rch '-'))
      (.cat (rstar rdot) (.cat (rstrI "original") (.cat (rstar rws)
        (.cat (rstrI "message") (.cat (rstar rdot) (.cat (rch '-') (.cat (rch '-')
          (.cat (rch '-') (.cat (rstar (rch '-')) .eos))))))))))))) ]

/-- The other-noise patterns (matched with `re.search`). -/
def noiseRes : List Re :=
  [ .cat (rstr "[image:") (.cat (rstarL rdot) (rch ']')),
    .cat (rstr "[cid:") (.cat (rstarL rdot) (rch ']')),
    .cat (rch '<') (.cat (rstrI "http") (.cat (ropt (rchI 's')) (.cat (rstr "://")
      (.cat (rplus (.cls (fun c => ¬ isPySpace c))) (rch '>'))))),
    .cat (rstrI "sent") (.cat (rstar rws) (.cat (rstrI "from") (.cat (rstar rws)
      (.cat (ropt (.cat (rstrI "my") (rstar rws)))
        (.cat (ralts [rstrI "iphone", rstrI "android", rstrI "mobile"])
          (.cat (rstar rdot) .eos)))))),
    .cat (rstrI "get") (.cat (rstar rws) (.cat (rstrI "outlook") (.cat (rstar rws)
      (.cat (rstrI "for") (.cat (rstar rdot) .eos))))) ]

/-- Python `str.split('\n')`. -/
def splitLines (s : String) : List String :=
  (s.data.splitOn '\n').map String.mk

/-- The line-by-line loop of `remove_noise`.  `inq` is `in_quoted_section`;
a signature line stops processing altogether. -/
def noiseLoop : List String → Bool → List String
  | [], _ => []
  | line :: rest, inq =>
    let lineLower := pyStrip (pyLower line)
    if inq && pyStrip line = "" then noiseLoop rest inq
    else if replyRes.any (fun p => (reMatch p lineLower).isSome) then
      noiseLoop rest true
    else
      let stripped := pyStrip line
      if inq && strStarts stripped ">" then noiseLoop rest inq
      else
        let inq' :=
          if inq && stripped.length > 50 && ¬ strStarts stripped ">" then false
          else inq
        if signatureRes.any (fun p => (reMatch p lineLower).isSome) then []
        else if disclaimerRes.any (fun p => (reSearch p lineLower).isSome) then
          noiseLoop rest inq'
        else if noiseRes.any (fun p => (reSearch p lineLower).isSome) then
          noiseLoop rest inq'
        else line :: noiseLoop rest inq'

/-- `remove_noise`. -/
def remove_noise (text : String) : String :=
  if text = "" then ""
  else
    let cleaned := String.intercalate "\n" (noiseLoop (splitLines text) false)
    let cleaned := reSub nl3Run "\n\n" cleaned
    let cleaned := reSub spTabRun " " cleaned
    pyStrip cleaned

/-- The keyword list preserved by `trim_to_token_limit`. -/
def preserveKeywords : List String :=
  [ "apply", "deadline", "role", "position", "ctc", "stipend",
    "eligibility", "batch", "branch", "location", "link",
    "cgpa", "salary", "lpa", "package", "register", "date" ]

/-- `trim_to_token_limit`. -/
def trim_to_token_limit (text : String) (maxChars : Nat := 12000) : String :=
  if text.length ≤ maxChars then text
  else
    let lines := splitLines text
    let important := lines.filter (fun l =>
      preserveKeywords.any (fun kw => strContainsSub (pyLower l) kw))
    let other := lines.filter (fun l =>
      ¬ preserveKeywords.any (fun kw => strContainsSub (pyLower l) kw))
    let importantText := String.intercalate "\n" important
    if maxChars > importantText.length + 100 then
      let remaining := maxChars - importantText.length - 100
      let otherText := String.mk ((String.intercalate "\n" other).data.take remaining)
      pyStrip (importantText ++ "\n\n" ++ otherText)
    else pyStrip (String.mk (importantText.data.take maxChars))

/-- Excerpt date pattern 1: `\b\d{1,2}[/\-]\d{1,2}[/\-]\d{2,4}\b` (the source
writes the class as slash-dash without the escape). -/
def exDate1 : Re :=
  .cat .wb (.cat (rep12 rdigit) (.cat (rset ['/', '-']) (.cat (rep12 rdigit)
    (.cat (rset ['/', '-']) (.cat (repRange rdigit 2 2) .wb)))))

/-- Excerpt date pattern 2: `\b\d{1,2}(?:st|nd|rd|th)?\s+(?:Jan|...|Dec)[a-z]*\s+\d{4}\b`. -/
def exDate2 : Re :=
  .cat .wb (.cat (rep12 rdigit)
    (.cat (ropt (ralts [rstrI "st", rstrI "nd", rstrI "rd", rstrI "th"]))
      (.cat (rplus rws) (.cat (ralts
        [ rstrI "jan", rstrI "feb", rstrI "mar", rstrI "apr", rstrI "may", rstrI "jun",
          rstrI "jul", rstrI "aug", rstrI "sep", rstrI "oct", rstrI "nov", rstrI "dec" ])
        (.cat (rstar (.cls (fun c => 'a' ≤ c && c ≤ 'z')))
          (.cat (rplus rws)
            (.cat (.cat rdigit (.cat rdigit (.cat rdigit rdigit))) .wb)))))))

/-- Excerpt date pattern 3: `\b(?:Jan|...|Dec)[a-z]*\s+\d{1,2},?\s+\d{4}\b`. -/
def exDate3 : Re :=
  .cat .wb (.cat (ralts
    [ rstrI "jan", rstrI "feb", rstrI "mar", rstrI "apr", rstrI "may", rstrI "jun",
      rstrI "jul", rstrI "aug", rstrI "sep", rstrI "oct", rstrI "nov", rstrI "dec" ])
    (.cat (rstar (.cls (fun c => 'a' ≤ c && c ≤ 'z')))
      (.cat (rplus rws) (.cat (rep12 rdigit) (.cat (ropt (rch ','))
        (.cat (rplus rws) (.cat (.cat rdigit (.cat rdigit (.cat rdigit rdigit))) .wb)))))))

/-- Excerpt money pattern 1: `\b\d+(?:\.\d+)?\s*(?:lpa|lakhs?|lac)\b`. -/
def exMoney1 : Re :=
  .cat .wb (.cat numDec (.cat (rstar rws)
    (.cat (ralts [rstrI "lpa", .cat (rstrI "lakh") (ropt (rchI 's')), rstrI "lac"]) .wb)))

/-- Excerpt money pattern 2: `₹\s*\d+(?:,\d+)*(?:\.\d+)?(?:\s*(?:lpa|lakh|k|per\s*month))?`. -/
def exMoney2 : Re :=
  .cat (rch '₹') (.cat (rstar rws) (.cat numComma (.cat (ropt (.cat (rch '.') (rplus rdigit)))
    (ropt (.cat (rstar rws)
      (ralts [rstrI "lpa", rstrI "lakh", rchI 'k', perMonthRe]))))))

/-- Excerpt money pattern 3: `\b(?:ctc|salary|stipend|package)\s*[:=]?\s*₹?\s*\d+(?:\.\d+)?[^\n]{0,20}`. -/
def exMoney3 : Re :=
  .cat .wb (.cat (ralts [rstrI "ctc", rstrI "salary", rstrI "stipend", rstrI "package"])
    (.cat (rstar rws) (.cat (ropt (rset [':', '='])) (.cat (rstar rws)
      (.cat (ropt (rch '₹')) (.cat (rstar rws) (.cat numDec (repAtMost rdot 20))))))))

/-- Excerpt CGPA pattern: `\b(?:cgpa|cg|gpa)\s*[:=]?\s*\d+(?:\.\d+)?(?:\s*(?:and\s*above|above|\+))?\b`. -/
def exCgpa : Re :=
  .cat .wb (.cat cgpaKw (.cat (rstar rws) (.cat (ropt (rset [':', '='])) (.cat (rstar rws)
    (.cat numDec (.cat (ropt (.cat (rstar rws) (ralts
      [ .cat (rstrI "and") (.cat (rstar rws) (rstrI "above")), rstrI "above", rch '+' ])))
      .wb))))))

/-- Append an excerpt only when not already present (`if excerpt not in excerpts`). -/
def addIfNew (acc : List String) (e : String) : List String :=
  if acc.contains e then acc else acc ++ [e]

/-- `extract_important_sections`, returning the excerpt list (the string form
is `"IMPORTANT EXCERPTS:..."` plus the tail; the pipeline consumes the list). -/
def extract_important_sections (text : String) : List String :=
  let urls := (reFindAll urlRe text).take 3
  let acc := urls.map (fun u => "URL: " ++ u)
  let acc := [exDate1, exDate2, exDate3].foldl (fun acc p =>
    ((reFindAll p text).take 2).foldl (fun acc d => addIfNew acc ("DATE: " ++ d)) acc) acc
  let acc := [exMoney1, exMoney2, exMoney3].foldl (fun acc p =>
    ((reFindAll p text).take 2).foldl (fun acc m =>
      addIfNew acc ("COMPENSATION: " ++ pyStrip m)) acc) acc
  let acc := ((reFindAll exCgpa text).take 1).foldl (fun acc c =>
    acc ++ ["CGPA: " ++ c]) acc
  acc

/-! ### langgraph_pipeline.py -/

/-- The status strings the two pipelines assign. -/
inductive LStatus where
  | pending
  | filtered
  | cleaned
  | extracted
  | failed
  | validated
  | needs_review
  | duplicate
  | ready
  | inserted
deriving Repr, DecidableEq, Fintype

/-- `ALLOWED_SENDERS`. -/
def allowedSenders : List String :=
  ["navanita@iiit-bh.ac.in", "rajashree@iiit-bh.ac.in", "placement@iiit-bh.ac.in"]

/-- The campus-drive keyword list of `filter_sender_node`. -/
def driveKeywords : List String :=
  [ "campus drive", "recruitment drive", "campus recruitment",
    "placement drive", "pool campus", "hiring drive",
    "internship drive", "fte drive", "online test" ]

/-- The dict built by `map_to_model_node` / `map_to_placement_drive`. -/
structure PlacementRecord where
  company_name : Option String
  company_logo : Option String
  role : Option String
  drive_type : Option String
  batch : Option String
  drive_date : Option String
  registration_deadline : Option String
  eligible_branches : Option String
  min_cgpa : Option ℚ
  eligibility_text : Option String
  ctc_or_stipend : Option String
  job_location : Option String
  registration_link : Option String
  status : Option String
  confidence_score : Option ℚ
  official_source : Option String
deriving Repr, DecidableEq

/-- The evolving shape of the `validated_data` dict: absent at start, the
validator's dict after node 8, the placement dict after node 10. -/
inductive VSlot where
  | empty
  | vdata (v : ValidatedData)
  | mapped (p : PlacementRecord)
deriving Repr, DecidableEq

/-- The LangGraph `PipelineState` (the keys the embedded nodes touch). -/
structure LGState where
  sender : String
  subject : String
  raw_body : String
  is_allowed_sender : Bool
  plain_text : String
  clean_text : String
  trimmed_text : String
  excerpts : List String
  regex_data : Option RegexData
  gemini_data : Option GeminiData
  extracted_data : Option RegexData
  validated_data : VSlot
  status : LStatus
  is_duplicate : Bool
  error_message : Option String
  api_key : Option String
  use_gemini : Bool
  existing_drives : List DriveSummary
deriving Repr, DecidableEq

/-- Node 1: `filter_sender_node`. -/
def filter_sender_node (s : LGState) : LGState :=
  let senderLower := pyLower s.sender
  if ¬ allowedSenders.any (fun a => strContainsSub senderLower a) then
    { s with is_allowed_sender := false, status := .filtered,
             error_message := some ("Sender not allowed: " ++ s.sender) }
  else
    let subjectLower := pyLower s.subject
    if ¬ driveKeywords.any (fun kw => strContainsSub subjectLower kw) then
      { s with is_allowed_sender := true, status := .filtered,
               error_message :=
                 some ("Not a campus drive email: " ++ String.mk (s.subject.data.take 50)) }
    else { s with is_allowed_sender := true, status := .pending }

/-- Node 2: `html_to_text_node` (success path; the exception arm appears in the
trace relation below). -/
def html_to_text_node (soupText : String → String) (s : LGState) : LGState :=
  if s.status = .filtered then s
  else { s with plain_text := html_to_text soupText s.raw_body }

/-- Node 3: `remove_noise_node`. -/
def remove_noise_node (s : LGState) : LGState :=
  if s.status = .filtered ∨ s.status = .failed then s
  else { s with clean_text := remove_noise s.plain_text }

/-- Node 4: `token_safety_node`. -/
def token_safety_node (s : LGState) : LGState :=
  if s.status = .filtered ∨ s.status = .failed then s
  else { s with trimmed_text := trim_to_token_limit s.clean_text 12000,
                status := .cleaned }

/-- Node 5: `extract_sections_node`. -/
def extract_sections_node (s : LGState) : LGState :=
  if s.status = .filtered ∨ s.status = .failed then s
  else { s with excerpts := extract_important_sections s.clean_text }

/-- Node 6: `regex_extract_node`. -/
def regex_extract_node (s : LGState) : LGState :=
  if s.status = .filtered ∨ s.status = .failed then s
  else
    let rd := extract_all_fields s.trimmed_text s.subject
    { s with regex_data := some rd, extracted_data := some rd, status := .extracted }

/-- The merge loop of `gemini_enhance_node`: every non-null Gemini field except
`extraction_error` and `confidence_score` overwrites the base value. -/
def geminiMerge (base : RegexData) (g : GeminiData) : RegexData :=
  { base with
    company_name := Option.or g.company_name base.company_name
    role := Option.or g.role base.role
    drive_type := Option.or g.drive_type base.drive_type
    batch := Option.or g.batch base.batch
    drive_date := Option.or g.drive_date base.drive_date
    registration_deadline := Option.or g.registration_deadline base.registration_deadline
    eligible_branches := Option.or g.eligible_branches base.eligible_branches
    min_cgpa := Option.or g.min_cgpa base.min_cgpa
    ctc_or_stipend := Option.or g.ctc_or_stipend base.ctc_or_stipend
    job_location := Option.or g.job_location base.job_location
    registration_link := Option.or g.registration_link base.registration_link }

/-- Node 7: `gemini_enhance_node`, parametrised by the service outcome `svc`.
Skips when Gemini is not requested or no API key is configured; on a response
whose `extraction_error` is falsy, the confidence becomes the max of the two
and the method becomes `"regex+gemini"`.  (In every run reaching this node
`extracted_data` was set by node 6; the `none` arm is the empty-dict default.) -/
def gemini_enhance_node (svc : Option GeminiJson) (s : LGState) : LGState :=
  if s.status = .filtered ∨ s.status = .failed then s
  else if ¬ s.use_gemini then s
  else
    match s.api_key with
    | none => s
    | some _ =>
      match s.extracted_data with
      | none => s
      | some base =>
        let g := extract_with_gemini svc
        let merged := geminiMerge base g
        let merged :=
          if ¬ optTruthy g.extraction_error then
            { merged with
              confidence_score := max merged.confidence_score g.confidence_score
              extraction_method := "regex+gemini" }
          else merged
        { s with gemini_data := some g, extracted_data := some merged }

/-- Node 8: `validation_node`. -/
def validation_node (s : LGState) : LGState :=
  if s.status = .filtered ∨ s.status = .failed then s
  else
    match s.extracted_data with
    | none => s
    | some d =>
      let v := validate_extracted_data d
      { s with validated_data := .vdata v,
               status := if v.needs_review then .needs_review else .validated }

/-- Node 9: `deduplication_node`. -/
def deduplication_node (s : LGState) : LGState :=
  if s.status = .filtered ∨ s.status = .failed then s
  else
    match s.validated_data with
    | .vdata v =>
      if check_duplicate v s.existing_drives then
        { s with is_duplicate := true, status := .duplicate }
      else { s with is_duplicate := false }
    | _ => { s with is_duplicate := false }

/-- Build the placement dict from the validator's dict (`validated.get(field)`
for each model field; keys the validator never sets come out null). -/
def placementOfValidated (v : ValidatedData) : PlacementRecord :=
  { company_name := v.company_name, company_logo := none, role := v.role,
    drive_type := v.drive_type, batch := v.batch, drive_date := v.drive_date,
    registration_deadline := v.registration_deadline,
    eligible_branches := v.eligible_branches, min_cgpa := v.min_cgpa,
    eligibility_text := none, ctc_or_stipend := v.ctc_or_stipend,
    job_location := v.job_location, registration_link := v.registration_link,
    status := none, confidence_score := some v.confidence_score,
    official_source := none }

/-- The defaults of `map_to_model_node`: falsy `status` becomes `"upcoming"`,
falsy `official_source` becomes `"TPO Email"`. -/
def placementDefaults (p : PlacementRecord) : PlacementRecord :=
  let p := if ¬ optTruthy p.status then { p with status := some "upcoming" } else p
  if ¬ optTruthy p.official_source then { p with official_source := some "TPO Email" }
  else p

/-- Node 10: `map_to_model_node`.  Note the guard skips only `filtered`,
`failed` and `duplicate`: `needs_review` records are still mapped and the
status still becomes `ready`. -/
def map_to_model_node (s : LGState) : LGState :=
  if s.status = .filtered ∨ s.status = .failed ∨ s.status = .duplicate then s
  else
    let p :=
      match s.validated_data with
      | .vdata v => placementOfValidated v
      | .mapped p => p
      | .empty =>
        { company_name := none, company_logo := none, role := none,
          drive_type := none, batch := none, drive_date := none,
          registration_deadline := none, eligible_branches := none,
          min_cgpa := none, eligibility_text := none, ctc_or_stipend := none,
          job_location := none, registration_link := none, status := none,
          confidence_score := none, official_source := none }
    { s with validated_data := .mapped (placementDefaults p), status := .ready }

/-- The initial `PipelineState` of `run_langgraph_pipeline`. -/
def initialLGState (sender subject raw_body : String)
    (existing : List DriveSummary) (apiKey : Option String) (useGemini : Bool) :
    LGState :=
  { sender := sender, subject := subject, raw_body := raw_body,
    is_allowed_sender := false, plain_text := "", clean_text := "",
    trimmed_text := "", excerpts := [], regex_data := none, gemini_data := none,
    extracted_data := none, validated_data := .empty, status := .pending,
    is_duplicate := false, error_message := none, api_key := apiKey,
    use_gemini := useGemini, existing_drives := existing }

/-- `run_langgraph_pipeline`: the ten nodes in the edge order of
`build_pipeline`, on the success paths (`soupText` abstracts BeautifulSoup,
`svc` the Gemini service outcome). -/
def run_langgraph_pipeline (soupText : String → String) (svc : Option GeminiJson)
    (sender subject raw_body : String) (existing : List DriveSummary)
    (apiKey : Option String) (useGemini : Bool) : LGState :=
  map_to_model_node (deduplication_node (validation_node
    (gemini_enhance_node svc (regex_extract_node (extract_sections_node
      (token_safety_node (remove_noise_node (html_to_text_node soupText
        (filter_sender_node
          (initialLGState sender subject raw_body existing apiKey useGemini))))))))))

/-! ### email_pipeline.py: the persistence gate -/

/-- The record `prepare_db_record` builds for the storage collaborator. -/
structure DbRecord where
  company_name : Option String
  role : Option String
  drive_type : Option String
  batch : Option String
  drive_date : Option String
  registration_deadline : Option String
  eligible_branches : Option String
  min_cgpa : Option ℚ
  ctc_or_stipend : Option String
  job_location : Option String
  registration_link : Option String
  status : String
  confidence_score : ℚ
  official_source : String
deriving Repr, DecidableEq

/-- `prepare_db_record`: returns `None` for duplicates, for states that are
neither validated nor needs_review, and whenever the validated data has no
(truthy) company name. -/
def prepare_db_record (status : LStatus) (validated : ValidatedData) :
    Option DbRecord :=
  if status = .duplicate then none
  else if ¬ (status = .validated ∨ status = .needs_review) then none
  else if ¬ optTruthy validated.company_name then none
  else
    some { company_name := validated.company_name, role := validated.role,
           drive_type := validated.drive_type, batch := validated.batch,
           drive_date := validated.drive_date,
           registration_deadline := validated.registration_deadline,
           eligible_branches := validated.eligible_branches,
           min_cgpa := validated.min_cgpa,
           ctc_or_stipend := validated.ctc_or_stipend,
           job_location := validated.job_location,
           registration_link := validated.registration_link,
           status := "upcoming", confidence_score := validated.confidence_score,
           official_source := "TPO Email" }

/-! ### The cross-message merger (`merge_company_results` in debug.py)

The merger reads each result's `validated_data` dict uniformly, so its fields
are modelled by a Python-value type with Python truthiness.  The loop's field
list is the `MField` enumeration below; `company_name` is the grouping key and
`confidence_score` is handled separately, as in the source. -/

/-- A Python dict value as the merger sees one. -/
inductive PyVal where
  | vnone
  | vstr (s : String)
  | vnum (q : ℚ)
deriving Repr, DecidableEq

/-- Python truthiness of a field value. -/
def PyVal.truthy : PyVal → Bool
  | .vnone => false
  | .vstr s => s ≠ ""
  | .vnum q => q ≠ 0

/-- The eleven field names of the merge loop, in source order. -/
inductive MField where
  | role
  | drive_type
  | batch
  | drive_date
  | registration_deadline
  | eligible_branches
  | min_cgpa
  | eligibility_text
  | ctc_or_stipend
  | job_location
  | registration_link
deriving Repr, DecidableEq, Fintype

/-- One processed result, projected to what the merger reads: the
`validated_data` company name, the loop fields, and the confidence score
(`.get("confidence_score", 0)`). -/
structure MResult where
  company_name : Option String
  fields : MField → PyVal
  confidence_score : ℚ

instance : DecidableEq MResult := fun a b =>
  match a, b with
  | ⟨ac, af, acf⟩, ⟨bc, bf, bcf⟩ =>
    decidable_of_iff (ac = bc ∧ af = bf ∧ acf = bcf)
      (by rw [MResult.mk.injEq])

/-- One step of the merge loop for one field: `if not existing_val and
new_val: existing[field] = new_val`. -/
def mergeFieldStep (ev nv : PyVal) : PyVal :=
  if ¬ ev.truthy && nv.truthy then nv else ev

/-- Merging one later result into the group's record: fill falsy fields from
the new result, keep the higher confidence. -/
def mergeInto (existing nw : MResult) : MResult :=
  { company_name := existing.company_name
    fields := fun f => mergeFieldStep (existing.fields f) (nw.fields f)
    confidence_score :=
      if nw.confidence_score > existing.confidence_score then nw.confidence_score
      else existing.confidence_score }

/-- The grouping key: `company.lower().strip()` of a truthy company name. -/
def mergeKey? (r : MResult) : Option String :=
  match r.company_name with
  | none => none
  | some c => if c = "" then none else some (pyStrip (pyLower c))

/-- Update the insertion-ordered dict: merge into an existing entry, or append
a new one. -/
def updateAssoc : List (String × MResult) → String → MResult →
    List (String × MResult)
  | [], k, r => [(k, r)]
  | (k', v) :: t, k, r =>
    if k' = k then (k', mergeInto v r) :: t
    else (k', v) :: updateAssoc t k r

/-- One iteration of the merger's `for result in results` loop: results with a
falsy company name are skipped. -/
def mergeStep (acc : List (String × MResult)) (r : MResult) :
    List (String × MResult) :=
  match mergeKey? r with
  | none => acc
  | some k => updateAssoc acc k r

/-- `merge_company_results`: fold the results into the company map and return
its values in insertion order. -/
def merge_company_results (results : List MResult) : List MResult :=
  (results.foldl mergeStep []).map Prod.snd

/-- Written from the spec's words: the fold of `mergeInto` over a group, the
first result seeding the record. -/
def mergeGroup1 : List MResult → MResult
  | [] => { company_name := none, fields := fun _ => .vnone, confidence_score := 0 }
  | h :: t => t.foldl mergeInto h

/-- Written from the spec's words: the group of results sharing a key. -/
def groupOf (results : List MResult) (k : String) : List MResult :=
  results.filter (fun r => mergeKey? r = some k)

/-- Written from the spec's words: group the batch by lower-cased trimmed
company name (first-occurrence order) and merge each group. -/
def mergeSpecGrouped (results : List MResult) : List MResult :=
  (firstDedup (results.filterMap mergeKey?)).map
    (fun k => mergeGroup1 (groupOf results k))

/-! ### Status traces

Per-node status transition relations for the two pipelines.  Each relation is
transcribed from the node's guard and its possible status writes; the arms a
node reaches only through its `except` branch appear as extra disjuncts, so a
trace covers every run, including ones where a stage raises. -/

/-- Node 1 always writes a status: `filtered` on either filter, else `pending`. -/
def FilterStepL (_ s' : LStatus) : Prop := s' = .filtered ∨ s' = .pending

/-- Node 2 guards only `filtered`; otherwise it keeps the status or fails. -/
def HtmlStepL (s s' : LStatus) : Prop :=
  if s = .filtered then s' = s else s' = s ∨ s' = .failed

/-- Node 3. -/
def NoiseStepL (s s' : LStatus) : Prop :=
  if s = .filtered ∨ s = .failed then s' = s else s' = s ∨ s' = .failed

/-- Node 4 writes `cleaned` on success. -/
def TokenStepL (s s' : LStatus) : Prop :=
  if s = .filtered ∨ s = .failed then s' = s else s' = .cleaned ∨ s' = .failed

/-- Node 5 never writes a status (its except arm only clears excerpts). -/
def SectionsStepL (s s' : LStatus) : Prop := s' = s

/-- Node 6 writes `extracted` on success. -/
def RegexStepL (s s' : LStatus) : Prop :=
  if s = .filtered ∨ s = .failed then s' = s else s' = .extracted ∨ s' = .failed

/-- Node 7 never writes a status. -/
def GeminiStepL (s s' : LStatus) : Prop := s' = s

/-- Node 8 writes `validated` or `needs_review`, or `failed` on exception. -/
def ValidateStepL (s s' : LStatus) : Prop :=
  if s = .filtered ∨ s = .failed then s' = s
  else s' = .validated ∨ s' = .needs_review ∨ s' = .failed

/-- Node 9 writes `duplicate` or leaves the status. -/
def DedupStepL (s s' : LStatus) : Prop :=
  if s = .filtered ∨ s = .failed then s' = s else s' = .duplicate ∨ s' = s

/-- Node 10 writes `ready` unless the status is terminal. -/
def MapStepL (s s' : LStatus) : Prop :=
  if s = .filtered ∨ s = .failed ∨ s = .duplicate then s' = s else s' = .ready

/-- A full status trace of one LangGraph run: the status before node 1 and
after each of the ten nodes. -/
structure LGTrace where
  s0 : LStatus
  s1 : LStatus
  s2 : LStatus
  s3 : LStatus
  s4 : LStatus
  s5 : LStatus
  s6 : LStatus
  s7 : LStatus
  s8 : LStatus
  s9 : LStatus
  s10 : LStatus
  init : s0 = .pending
  h1 : FilterStepL s0 s1
  h2 : HtmlStepL s1 s2
  h3 : NoiseStepL s2 s3
  h4 : TokenStepL s3 s4
  h5 : SectionsStepL s4 s5
  h6 : RegexStepL s5 s6
  h7 : GeminiStepL s6 s7
  h8 : ValidateStepL s7 s8
  h9 : DedupStepL s8 s9
  h10 : MapStepL s9 s10

/-- The status observed at position `i` of a LangGraph trace. -/
def LGTrace.at (t : LGTrace) (i : Fin 11) : LStatus :=
  [t.s0, t.s1, t.s2, t.s3, t.s4, t.s5, t.s6, t.s7, t.s8, t.s9, t.s10].get
    ⟨i.1, i.2⟩

/-- The tier of each status in the defined forward order. -/
def lgRank : LStatus → Nat
  | .pending => 0
  | .filtered => 1
  | .cleaned => 1
  | .extracted => 2
  | .failed => 2
  | .validated => 3
  | .needs_review => 3
  | .duplicate => 4
  | .ready => 4
  | .inserted => 5

/-- The terminal statuses. -/
def lgTerminal (s : LStatus) : Bool :=
  s = .filtered || s = .failed || s = .duplicate

/-- email_pipeline `filter_sender`: writes `filtered` or returns unchanged. -/
def FilterStepE (s s' : LStatus) : Prop := s' = .filtered ∨ s' = s

/-- email_pipeline `clean_text_node`. -/
def CleanStepE (s s' : LStatus) : Prop :=
  if s = .filtered then s' = s else s' = .cleaned ∨ s' = .failed

/-- email_pipeline `extract_node` (also fails on an extraction error). -/
def ExtractStepE (s s' : LStatus) : Prop :=
  if s = .cleaned then s' = .extracted ∨ s' = .failed else s' = s

/-- email_pipeline `validate_node`. -/
def ValidateStepE (s s' : LStatus) : Prop :=
  if s = .extracted then s' = .validated ∨ s' = .needs_review ∨ s' = .failed
  else s' = s

/-- email_pipeline `dedup_node` (its except arm leaves the status). -/
def DedupStepE (s s' : LStatus) : Prop :=
  if s = .validated ∨ s = .needs_review then s' = .duplicate ∨ s' = s else s' = s

/-- email_pipeline `map_to_placement_drive` never writes a status. -/
def MapStepE (s s' : LStatus) : Prop := s' = s

/-- A full status trace of one `run_pipeline` run. -/
structure EPTrace where
  s0 : LStatus
  s1 : LStatus
  s2 : LStatus
  s3 : LStatus
  s4 : LStatus
  s5 : LStatus
  s6 : LStatus
  init : s0 = .pending
  h1 : FilterStepE s0 s1
  h2 : CleanStepE s1 s2
  h3 : ExtractStepE s2 s3
  h4 : ValidateStepE s3 s4
  h5 : DedupStepE s4 s5
  h6 : MapStepE s5 s6

/-- The status observed at position `i` of an email-pipeline trace. -/
def EPTrace.at (t : EPTrace) (i : Fin 7) : LStatus :=
  [t.s0, t.s1, t.s2, t.s3, t.s4, t.s5, t.s6].get ⟨i.1, i.2⟩

/-- The LangGraph trace statuses as a plateaued sequence (constant after
position 10), convenient for chain induction. -/
def LGTrace.seq (t : LGTrace) (k : ℕ) : LStatus :=
  [t.s0, t.s1, t.s2, t.s3, t.s4, t.s5, t.s6, t.s7, t.s8, t.s9, t.s10].getD k t.s10

/-- The email-pipeline trace statuses as a plateaued sequence. -/
def EPTrace.seq (t : EPTrace) (k : ℕ) : LStatus :=
  [t.s0, t.s1, t.s2, t.s3, t.s4, t.s5, t.s6].getD k t.s6

instance (s s' : LStatus) : Decidable (FilterStepL s s') := by
  unfold FilterStepL; infer_instance

instance (s s' : LStatus) : Decidable (HtmlStepL s s') := by
  unfold HtmlStepL; infer_instance

instance (s s' : LStatus) : Decidable (NoiseStepL s s') := by
  unfold NoiseStepL; infer_instance

instance (s s' : LStatus) : Decidable (TokenStepL s s') := by
  unfold TokenStepL; infer_instance

instance (s s' : LStatus) : Decidable (SectionsStepL s s') := by
  unfold SectionsStepL; infer_instance

instance (s s' : LStatus) : Decidable (RegexStepL s s') := by
  unfold RegexStepL; infer_instance

instance (s s' : LStatus) : Decidable (GeminiStepL s s') := by
  unfold GeminiStepL; infer_instance

instance (s s' : LStatus) : Decidable (ValidateStepL s s') := by
  unfold ValidateStepL; infer_instance

instance (s s' : LStatus) : Decidable (DedupStepL s s') := by
  unfold DedupStepL; infer_instance

instance (s s' : LStatus) : Decidable (MapStepL s s') := by
  unfold MapStepL; infer_instance

instance (s s' : LStatus) : Decidable (FilterStepE s s') := by
  unfold FilterStepE; infer_instance

instance (s s' : LStatus) : Decidable (CleanStepE s s') := by
  unfold CleanStepE; infer_instance

instance (s s' : LStatus) : Decidable (ExtractStepE s s') := by
  unfold ExtractStepE; infer_instance

instance (s s' : LStatus) : Decidable (ValidateStepE s s') := by
  unfold ValidateStepE; infer_instance

instance (s s' : LStatus) : Decidable (DedupStepE s s') := by
  unfold DedupStepE; infer_instance

instance (s s' : LStatus) : Decidable (MapStepE s s') := by
  unfold MapStepE; infer_instance

/-! ### Spec-side predicates and concrete records for the claims -/

/-- Written from the spec's words (§4.6): one existing summary is matched by
the Candidate — company names equal after lower-casing and trimming, roles
equal case-insensitively (after trimming) or either unset/empty, and deadlines
equal or the Candidate's unset. -/
def dupSpecMatch (cand : ValidatedData) (d : DriveSummary) : Prop :=
  pyStrip (pyLower ((d.company_name).getD "")) =
    pyStrip (pyLower ((cand.company_name).getD "")) ∧
  (pyStrip (pyLower ((d.role).getD "")) = pyStrip (pyLower ((cand.role).getD "")) ∨
    pyStrip (pyLower ((cand.role).getD "")) = "" ∨
    pyStrip (pyLower ((d.role).getD "")) = "") ∧
  (d.registration_deadline = cand.registration_deadline ∨
    ¬ optTruthy cand.registration_deadline = true)

instance (cand : ValidatedData) (d : DriveSummary) : Decidable (dupSpecMatch cand d) := by
  unfold dupSpecMatch; infer_instance

/-- Written from the spec's words: some existing record matches. -/
def isDuplicateOfSpec (cand : ValidatedData) (existing : List DriveSummary) : Prop :=
  ∃ d ∈ existing, dupSpecMatch cand d

instance (cand : ValidatedData) (existing : List DriveSummary) :
    Decidable (isDuplicateOfSpec cand existing) := by
  unfold isDuplicateOfSpec; infer_instance

/-- A `ValidatedData` record with every field unset (dict defaults). -/
def emptyValidated : ValidatedData :=
  { company_name := none, role := none, drive_type := none, batch := none,
    drive_date := none, registration_deadline := none, eligible_branches := none,
    min_cgpa := none, ctc_or_stipend := none, job_location := none,
    registration_link := none, confidence_score := 0, extraction_method := "regex",
    needs_review := false, validation_errors := [] }

/-- The candidate of the spec's wildcard-duplicate example. -/
def acmeCand : ValidatedData :=
  { emptyValidated with company_name := some "acme", role := some "SDE Intern",
                        registration_deadline := some "2026-01-10" }

/-- The existing record of the spec's wildcard-duplicate example. -/
def acmeDrive : DriveSummary :=
  { company_name := some "Acme", role := none, batch := some "2026",
    registration_deadline := some "2026-01-10" }

/-- A candidate with no company name but wildcard-matchable role/deadline. -/
def noCompanyCand : ValidatedData :=
  { emptyValidated with role := some "SDE Intern",
                        registration_deadline := some "2026-01-10" }

/-- An all-null extraction record. -/
def emptyRegexData : RegexData :=
  { company_name := none, role := none, drive_type := none, batch := none,
    drive_date := none, registration_deadline := none, eligible_branches := none,
    min_cgpa := none, ctc_or_stipend := none, job_location := none,
    registration_link := none, confidence_score := 0, extraction_method := "regex" }

/-- Validation input with `min_cgpa` 0 (the boundary the claim excludes). -/
def zeroCgpaData : RegexData :=
  { emptyRegexData with company_name := some "Acme", min_cgpa := some 0 }

/-- Validation input with `min_cgpa` 12.5 (the spec's rejection example). -/
def cgpa125Data : RegexData :=
  { emptyRegexData with company_name := some "Acme", min_cgpa := some (25/2) }

/-- The company name stored in the `validated_data` slot, whatever its shape. -/
def vslotCompany : VSlot → Option String
  | .empty => none
  | .vdata v => v.company_name
  | .mapped p => p.company_name

/-- A pipeline run on an allowed sender and a drive-keyword subject whose
subject matches no company pattern and whose body is empty. -/
def noCompanyRun : LGState :=
  run_langgraph_pipeline (fun s => s) none "placement@iiit-bh.ac.in"
    "campus drive" "" [] none true

/-- A state about to enter the enhancement node with regex data present. -/
def enhanceBaseState : LGState :=
  { initialLGState "placement@iiit-bh.ac.in" "campus drive" "" [] (some "key") true with
      status := .extracted, extracted_data := some emptyRegexData,
      regex_data := some emptyRegexData }

/-- A parsed service response that carries an error indicator *and* a field. -/
def errorWithFieldJson : GeminiJson :=
  { company_name := none, role := some "SDE", drive_type := none, batch := none,
    drive_date := none, registration_deadline := none, eligible_branches := none,
    min_cgpa := none, ctc_or_stipend := none, job_location := none,
    registration_link := none, extraction_error := some "quota exceeded" }

/-- The enhancement-entry state with no API key configured. -/
def enhanceNoKeyState : LGState :=
  { enhanceBaseState with api_key := none }

/-- The state used to exercise the confidence-bound theorem at the enhancement
stage. -/
def boundsProbeState : LGState :=
  { initialLGState "placement@iiit-bh.ac.in" "campus drive" "" [] none true with
      status := .extracted, extracted_data := some (extract_all_fields "" "") }

/-- The merge example's Candidate A. -/
def exCandA : MResult :=
  { company_name := some "Acme"
    fields := fun f =>
      match f with
      | .ctc_or_stipend => .vstr "₹12 LPA"
      | _ => .vnone
    confidence_score := 6/10 }

/-- The merge example's Candidate B. -/
def exCandB : MResult :=
  { company_name := some "acme"
    fields := fun f =>
      match f with
      | .role => .vstr "SDE"
      | _ => .vnone
    confidence_score := 8/10 }

/-- The merge example's expected result. -/
def exMerged : MResult :=
  { company_name := some "Acme"
    fields := fun f =>
      match f with
      | .role => .vstr "SDE"
      | .ctc_or_stipend => .vstr "₹12 LPA"
      | _ => .vnone
    confidence_score := 8/10 }

/-- A successful LangGraph status trace (used to instantiate the monotonicity
theorem). -/
def lgTraceOk : LGTrace where
  s0 := .pending
  s1 := .pending
  s2 := .pending
  s3 := .pending
  s4 := .cleaned
  s5 := .cleaned
  s6 := .extracted
  s7 := .extracted
  s8 := .validated
  s9 := .validated
  s10 := .ready
  init := rfl
  h1 := Or.inr rfl
  h2 := by decide
  h3 := by decide
  h4 := by decide
  h5 := rfl
  h6 := by decide
  h7 := rfl
  h8 := by decide
  h9 := by decide
  h10 := by decide

/-- A successful email-pipeline status trace. -/
def epTraceOk : EPTrace where
  s0 := .pending
  s1 := .pending
  s2 := .cleaned
  s3 := .extracted
  s4 := .validated
  s5 := .validated
  s6 := .validated
  init := rfl
  h1 := Or.inr rfl
  h2 := by decide
  h3 := by decide
  h4 := by decide
  h5 := by decide
  h6 := rfl

/-! ## Theorems -/

/-- The dedup loop is the boolean "any" of the per-drive match. -/
theorem dupLoop_eq_any (nc nr : String) (nd : Option String) :
    ∀ l : List DriveSummary, dupLoop nc nr nd l = l.any (driveMatches nc nr nd)
  | [] => rfl
  | d :: rest => by
    cases h : driveMatches nc nr nd d <;>
      simp [dupLoop, h, dupLoop_eq_any nc nr nd rest]

/-- The per-drive boolean match is the spec's per-drive predicate. -/
theorem driveMatches_true_iff (cand : ValidatedData) (d : DriveSummary) :
    driveMatches (pyStrip (pyLower ((cand.company_name).getD "")))
      (pyStrip (pyLower ((cand.role).getD ""))) cand.registration_deadline d
      = true ↔ dupSpecMatch cand d := by
  simp only [driveMatches, dupSpecMatch, Bool.and_eq_true, Bool.or_eq_true,
    decide_eq_true_eq, Bool.not_eq_true]
  tauto

/-- C1.  For every validated Candidate with a (truthy) company name and every
snapshot of existing drive records, `check_duplicate` returns true exactly
when some existing record matches the Candidate under the spec's wildcard
rules (companies equal after lower-casing and trimming; roles equal
case-insensitively or either unset/empty; deadlines equal or the Candidate's
unset); in particular the spec's Acme example is detected as a duplicate. -/
theorem check_duplicate_matches_spec (cand : ValidatedData)
    (existing : List DriveSummary) (hc : optTruthy cand.company_name = true) :
    (check_duplicate cand existing = true ↔ isDuplicateOfSpec cand existing) ∧
    check_duplicate acmeCand [acmeDrive] = true := by
  refine ⟨?_, by decide⟩
  rw [check_duplicate, if_neg (by simp [hc]), dupLoop_eq_any, List.any_eq_true]
  unfold isDuplicateOfSpec
  constructor
  · rintro ⟨d, hd, hm⟩
    exact ⟨d, hd, (driveMatches_true_iff cand d).1 hm⟩
  · rintro ⟨d, hd, hm⟩
    exact ⟨d, hd, (driveMatches_true_iff cand d).2 hm⟩

/-- Witness for C1: the spec's wildcard example discharges the hypothesis. -/
theorem check_duplicate_matches_spec_witness :
    (check_duplicate acmeCand [acmeDrive] = true ↔
      isDuplicateOfSpec acmeCand [acmeDrive]) ∧
    check_duplicate acmeCand [acmeDrive] = true :=
  check_duplicate_matches_spec acmeCand [acmeDrive] (by decide)

/-- C10.  A record whose company name is unset or empty is never classified as
a duplicate, whatever the snapshot contains. -/
theorem check_duplicate_requires_company (cand : ValidatedData)
    (existing : List DriveSummary) (h : optTruthy cand.company_name = false) :
    check_duplicate cand existing = false := by
  simp [check_duplicate, h]

/-- Witness for C10: a company-less candidate against a wildcard-matchable
existing record. -/
theorem check_duplicate_requires_company_witness :
    check_duplicate noCompanyCand [acmeDrive] = false :=
  check_duplicate_requires_company noCompanyCand [acmeDrive] (by decide)

/-- C3.  The rule-based extractor's confidence score is the count of non-null
extracted fields (excluding `confidence_score` and `extraction_method`)
divided by 8 and capped at 1. -/
theorem confidence_formula (text subject : String) :
    (extract_all_fields text subject).confidence_score =
      min ((regexNonNull (extract_all_fields text subject) : ℚ) / 8) 1 := rfl

/-- Counterexample for C5: the boundary value 0 lies outside the claimed
interval `(0,10]`, yet validation keeps it and records no error. -/
theorem cgpa_zero_kept :
    (validate_extracted_data zeroCgpaData).min_cgpa = some 0 ∧
    (validate_extracted_data zeroCgpaData).validation_errors = [] :=
  ⟨by decide, by decide⟩

/-- C5 (amended).  Validation discards `min_cgpa` exactly when it lies outside
`[0,10]`, recording the "Invalid CGPA range" error; any value inside `[0,10]`
(including the boundary 0) is kept unchanged. -/
theorem validate_cgpa_range (d : RegexData) (q : ℚ) (h : d.min_cgpa = some q) :
    ((q < 0 ∨ 10 < q) → (validate_extracted_data d).min_cgpa = none ∧
      "Invalid CGPA range" ∈ (validate_extracted_data d).validation_errors) ∧
    (0 ≤ q → q ≤ 10 → (validate_extracted_data d).min_cgpa = some q) := by
  unfold validate_extracted_data
  simp only [h]
  constructor
  · intro hout
    have hcond : q < 0 ∨ q > 10 := by
      rcases hout with h1 | h2
      · exact Or.inl h1
      · exact Or.inr h2
    refine ⟨by simp [hcond], ?_⟩
    simp [hcond]
  · intro h0 h10
    have hcond : ¬ (q < 0 ∨ q > 10) := by
      push_neg
      exact ⟨h0, h10⟩
    simp [hcond]

/-- Witness for C5: the spec's 12.5 example is discarded with an error. -/
theorem validate_cgpa_range_witness :
    cgpa125Data.min_cgpa = some (25/2) ∧
    ((((25:ℚ)/2) < 0 ∨ 10 < ((25:ℚ)/2)) →
      (validate_extracted_data cgpa125Data).min_cgpa = none ∧
      "Invalid CGPA range" ∈ (validate_extracted_data cgpa125Data).validation_errors) ∧
    (0 ≤ ((25:ℚ)/2) → ((25:ℚ)/2) ≤ 10 →
      (validate_extracted_data cgpa125Data).min_cgpa = some (25/2)) :=
  ⟨rfl, validate_cgpa_range cgpa125Data (25/2) rfl⟩

/-- Counterexample for C6: the text "Drive on Dec 15, 2025" does not yield
`drive_date = 2025-12-15` — "Drive on" is not one of the drive-date leads. -/
theorem date_drive_on_not_drive_date :
    (extract_dates "Drive on Dec 15, 2025").drive_date ≠ some "2025-12-15" := by
  decide

/-- C6 (amended).  "Apply before 11th December 2025" yields
`registration_deadline = 2025-12-11`; "Drive on Dec 15, 2025" leaves
`drive_date` unset and its date reaches `registration_deadline = 2025-12-15`
through the first-date fallback. -/
theorem date_extraction_examples :
    extract_dates "Apply before 11th December 2025" =
      { drive_date := none, registration_deadline := some "2025-12-11" } ∧
    extract_dates "Drive on Dec 15, 2025" =
      { drive_date := none, registration_deadline := some "2025-12-15" } :=
  ⟨by decide, by decide⟩

/-- The enhancement node either leaves `extracted_data` alone or produces the
merge of the present base record with the service result, with the
max-confidence/method update exactly when the error indicator is falsy. -/
theorem enhance_extracted_cases (svc : Option GeminiJson) (st : LGState) :
    (gemini_enhance_node svc st).extracted_data = st.extracted_data ∨
    (∃ base, st.extracted_data = some base ∧
      ((gemini_enhance_node svc st).extracted_data =
          some (geminiMerge base (extract_with_gemini svc)) ∨
        (gemini_enhance_node svc st).extracted_data =
          some { geminiMerge base (extract_with_gemini svc) with
                   confidence_score :=
                     max base.confidence_score
                       (extract_with_gemini svc).confidence_score
                   extraction_method := "regex+gemini" })) := by
  unfold gemini_enhance_node
  by_cases h1 : st.status = .filtered ∨ st.status = .failed
  · rw [if_pos h1]
    exact Or.inl rfl
  · rw [if_neg h1]
    by_cases h2 : ¬ st.use_gemini = true
    · rw [if_pos h2]
      exact Or.inl rfl
    · rw [if_neg h2]
      cases hk : st.api_key with
      | none => exact Or.inl rfl
      | some k =>
        cases hd : st.extracted_data with
        | none => exact Or.inl hd
        | some base =>
          refine Or.inr ⟨base, rfl, ?_⟩
          by_cases he : optTruthy (extract_with_gemini svc).extraction_error = true
          · left
            simp [he]
          · right
            simp only [Bool.not_eq_true] at he
            simp [he, geminiMerge]

/-- C4.  Confidence stays in `[0,1]` at each stage: the rule-based record, the
service result, the enhancement merge, and (preserved) through validation. -/
theorem confidence_bounds (text subject : String) (svc : Option GeminiJson)
    (st : LGState) :
    (0 ≤ (extract_all_fields text subject).confidence_score ∧
      (extract_all_fields text subject).confidence_score ≤ 1) ∧
    (0 ≤ (extract_with_gemini svc).confidence_score ∧
      (extract_with_gemini svc).confidence_score ≤ 1) ∧
    (st.extracted_data = some (extract_all_fields text subject) →
      ∀ r, (gemini_enhance_node svc st).extracted_data = some r →
        0 ≤ r.confidence_score ∧ r.confidence_score ≤ 1) ∧
    (∀ d : RegexData,
      (validate_extracted_data d).confidence_score = d.confidence_score) := by
  have hb : ∀ n : ℕ, 0 ≤ min ((n : ℚ) / 8) 1 ∧ min ((n : ℚ) / 8) 1 ≤ 1 :=
    fun n => ⟨le_min (by positivity) zero_le_one, min_le_right _ _⟩
  have hre : ∀ t s : String, 0 ≤ (extract_all_fields t s).confidence_score ∧
      (extract_all_fields t s).confidence_score ≤ 1 :=
    fun t s => hb (regexNonNull (extract_all_fields t s))
  have hgem : ∀ sv : Option GeminiJson,
      0 ≤ (extract_with_gemini sv).confidence_score ∧
      (extract_with_gemini sv).confidence_score ≤ 1 := by
    intro sv
    cases sv with
    | none => exact ⟨le_refl 0, zero_le_one⟩
    | some j => exact hb _
  refine ⟨hre text subject, hgem svc, ?_, fun d => rfl⟩
  intro hst r hr
  rcases enhance_extracted_cases svc st with hcase | ⟨base, hbase, hcase⟩
  · rw [hcase, hst] at hr
    injection hr with hr
    rw [← hr]
    exact hre text subject
  · rw [hst] at hbase
    injection hbase with hbase
    rcases hcase with h | h
    · rw [h] at hr
      injection hr with hr
      rw [← hr]
      show 0 ≤ base.confidence_score ∧ base.confidence_score ≤ 1
      rw [← hbase]
      exact hre text subject
    · rw [h] at hr
      injection hr with hr
      rw [← hr]
      refine ⟨?_, ?_⟩
      · exact le_max_of_le_left (by rw [← hbase]; exact (hre text subject).1)
      · exact max_le (by rw [← hbase]; exact (hre text subject).2) (hgem svc).2

/-- Witness for C4: the enhancement-stage bound at a concrete state whose
adapter is skipped (no credential). -/
theorem confidence_bounds_witness :
    0 ≤ (extract_all_fields "" "").confidence_score ∧
    (extract_all_fields "" "").confidence_score ≤ 1 :=
  (confidence_bounds "" "" none boundsProbeState).2.2.1 rfl
    (extract_all_fields "" "") rfl

/-- Counterexample for C7: an allowed-sender, drive-keyword message with an
empty body extracts no company name, yet the run terminates with status
`ready`. -/
theorem ready_without_company :
    noCompanyRun.status = .ready ∧
    vslotCompany noCompanyRun.validated_data = none :=
  ⟨by decide, by decide⟩

/-- C7 (amended).  A validated Candidate without a company name is flagged
`needs_review` with a "Missing company_name" error and is never handed to
storage by the persistence gate (`prepare_db_record` returns none for it,
whatever the status); the run's final pipeline status can nonetheless still
become `ready`, because the mapping stage does not exclude `needs_review`. -/
theorem missing_company_never_stored (d : RegexData)
    (h : optTruthy d.company_name = false) :
    (validate_extracted_data d).needs_review = true ∧
    "Missing company_name" ∈ (validate_extracted_data d).validation_errors ∧
    (∀ status : LStatus,
      prepare_db_record status (validate_extracted_data d) = none) := by
  have hcomp : (validate_extracted_data d).company_name = d.company_name := by
    simp [validate_extracted_data, h]
  refine ⟨by simp [validate_extracted_data, h], by simp [validate_extracted_data, h], ?_⟩
  intro status
  unfold prepare_db_record
  split_ifs with h1 h2 h3
  all_goals try rfl
  all_goals rw [hcomp] at h3; simp [h] at h3

/-- Witness for C7: the all-null extraction record. -/
theorem missing_company_never_stored_witness :
    (validate_extracted_data emptyRegexData).needs_review = true ∧
    "Missing company_name" ∈ (validate_extracted_data emptyRegexData).validation_errors ∧
    (∀ status : LStatus,
      prepare_db_record status (validate_extracted_data emptyRegexData) = none) :=
  missing_company_never_stored emptyRegexData rfl

/-- Counterexample for C8: a parsed service response that carries an error
indicator but also a non-null field still changes the extracted data — the
merge loop runs before the error check. -/
theorem enhancement_error_still_merges :
    (gemini_enhance_node (some errorWithFieldJson) enhanceBaseState).extracted_data ≠
      enhanceBaseState.extracted_data := by
  decide

/-- C8 (amended).  When the enhancement is not requested, or no credential is
configured, the state is returned untouched; when the adapter interaction
fails outright (`svc = none`), the extracted data is unchanged; when a parsed
response carries a truthy error indicator, the response's non-null fields are
still merged, but `confidence_score` and `extraction_method` keep their
rule-based values. -/
theorem enhancement_failure_behavior (st : LGState) (svc : Option GeminiJson) :
    (st.use_gemini = false → gemini_enhance_node svc st = st) ∧
    (st.api_key = none → gemini_enhance_node svc st = st) ∧
    (svc = none → (gemini_enhance_node svc st).extracted_data = st.extracted_data) ∧
    (∀ j, svc = some j → optTruthy j.extraction_error = true →
      ∀ base, st.extracted_data = some base →
        (gemini_enhance_node svc st).extracted_data = st.extracted_data ∨
        ((gemini_enhance_node svc st).extracted_data =
            some (geminiMerge base (extract_with_gemini svc)) ∧
          (geminiMerge base (extract_with_gemini svc)).confidence_score =
            base.confidence_score ∧
          (geminiMerge base (extract_with_gemini svc)).extraction_method =
            base.extraction_method)) := by
  refine ⟨?_, ?_, ?_, ?_⟩
  · intro h
    unfold gemini_enhance_node
    by_cases h1 : st.status = .filtered ∨ st.status = .failed
    · rw [if_pos h1]
    · rw [if_neg h1, if_pos (by simp [h])]
  · intro h
    unfold gemini_enhance_node
    by_cases h1 : st.status = .filtered ∨ st.status = .failed
    · rw [if_pos h1]
    · rw [if_neg h1]
      by_cases h2 : ¬ st.use_gemini = true
      · rw [if_pos h2]
      · rw [if_neg h2, h]
  · intro h
    subst h
    unfold gemini_enhance_node
    by_cases h1 : st.status = .filtered ∨ st.status = .failed
    · rw [if_pos h1]
    · rw [if_neg h1]
      by_cases h2 : ¬ st.use_gemini = true
      · rw [if_pos h2]
      · rw [if_neg h2]
        cases hk : st.api_key with
        | none => rfl
        | some k =>
          cases hd : st.extracted_data with
          | none => exact hd
          | some base =>
            show some _ = some base
            simp [extract_with_gemini, geminiDefault, geminiMerge, optTruthy,
              Option.none_or]
  · intro j hj he base hd
    subst hj
    unfold gemini_enhance_node
    by_cases h1 : st.status = .filtered ∨ st.status = .failed
    · rw [if_pos h1]
      exact Or.inl rfl
    · rw [if_neg h1]
      by_cases h2 : ¬ st.use_gemini = true
      · rw [if_pos h2]
        exact Or.inl rfl
      · rw [if_neg h2]
        cases hk : st.api_key with
        | none => exact Or.inl rfl
        | some k =>
          rw [hd]
          refine Or.inr ⟨?_, rfl, rfl⟩
          have he' : optTruthy (extract_with_gemini (some j)).extraction_error = true := he
          simp [he']

/-- Witness for C8: the state without a credential is returned untouched. -/
theorem enhancement_failure_behavior_witness :
    gemini_enhance_node (some errorWithFieldJson) enhanceNoKeyState =
      enhanceNoKeyState :=
  (enhancement_failure_behavior enhanceNoKeyState (some errorWithFieldJson)).2.1 rfl

/-- Records are equal when their three components are. -/
theorem MResult.extEq {a b : MResult} (h1 : a.company_name = b.company_name)
    (h2 : a.fields = b.fields) (h3 : a.confidence_score = b.confidence_score) :
    a = b := by
  cases a
  cases b
  cases h1
  cases h2
  cases h3
  rfl

/-- A result whose key matches stays at the head of its group. -/
theorem groupOf_cons_some {r : MResult} {rest : List MResult} {k : String}
    (h : mergeKey? r = some k) : groupOf (r :: rest) k = r :: groupOf rest k := by
  simp [groupOf, List.filter_cons, h]

/-- A result with a different (or no) key does not enter the group. -/
theorem groupOf_cons_ne {r : MResult} {rest : List MResult} {k : String}
    (h : ¬ mergeKey? r = some k) : groupOf (r :: rest) k = groupOf rest k := by
  simp [groupOf, List.filter_cons, h]

/-- Updating an absent key appends the entry. -/
theorem updateAssoc_notMem {acc : List (String × MResult)} {k : String}
    (r : MResult) (h : k ∉ acc.map Prod.fst) :
    updateAssoc acc k r = acc ++ [(k, r)] := by
  induction acc with
  | nil => rfl
  | cons kv t ih =>
    obtain ⟨k', v⟩ := kv
    simp only [List.map_cons, List.mem_cons, not_or] at h
    rw [updateAssoc, if_neg (fun he => h.1 he.symm), ih h.2]
    rfl

/-- Updating a present key keeps the key list. -/
theorem updateAssoc_map_fst {acc : List (String × MResult)} {k : String}
    {r : MResult} (h : k ∈ acc.map Prod.fst) :
    (updateAssoc acc k r).map Prod.fst = acc.map Prod.fst := by
  induction acc with
  | nil => simp at h
  | cons kv t ih =>
    obtain ⟨k', v⟩ := kv
    by_cases hk : k' = k
    · rw [updateAssoc, if_pos hk]
      rfl
    · rw [updateAssoc, if_neg hk]
      simp only [List.map_cons, List.mem_cons] at h ⊢
      rcases h with h | h
      · exact absurd h.symm hk
      · rw [ih h]

/-- Keys produced by the first-occurrence deduplication are fresh. -/
theorem firstDedupAux_not_seen :
    ∀ (l seen : List String) (k : String), k ∈ firstDedupAux l seen → k ∉ seen
  | [], _, _, h => by simp [firstDedupAux] at h
  | a :: l, seen, k, h => by
    rw [firstDedupAux] at h
    split_ifs at h with ha
    · exact firstDedupAux_not_seen l seen k h
    · rcases List.mem_cons.1 h with rfl | h
      · exact ha
      · intro hk
        exact firstDedupAux_not_seen l (a :: seen) k h (List.mem_cons_of_mem a hk)

/-- The deduplication depends on the seen set only through membership. -/
theorem firstDedupAux_congr :
    ∀ (l s1 s2 : List String), (∀ x, x ∈ s1 ↔ x ∈ s2) →
      firstDedupAux l s1 = firstDedupAux l s2
  | [], _, _, _ => rfl
  | a :: l, s1, s2, h => by
    rw [firstDedupAux, firstDedupAux]
    by_cases ha : a ∈ s1
    · rw [if_pos ha, if_pos ((h a).1 ha)]
      exact firstDedupAux_congr l s1 s2 h
    · rw [if_neg ha, if_neg (fun hc => ha ((h a).2 hc))]
      refine congrArg _ (firstDedupAux_congr l (a :: s1) (a :: s2) ?_)
      intro x
      simp only [List.mem_cons]
      exact or_congr Iff.rfl (h x)

/-- Merging a keyed result into the map rewrites exactly its entry, turning
group-folds over `rest` into group-folds over `r :: rest`. -/
theorem updateAssoc_map_upd {rest : List MResult} {r : MResult} {k0 : String}
    (hk : mergeKey? r = some k0) :
    ∀ (acc : List (String × MResult)), (acc.map Prod.fst).Nodup →
      k0 ∈ acc.map Prod.fst →
      (updateAssoc acc k0 r).map
          (fun kv => (kv.1, (groupOf rest kv.1).foldl mergeInto kv.2)) =
        acc.map (fun kv => (kv.1, (groupOf (r :: rest) kv.1).foldl mergeInto kv.2))
  | [], _, hmem => by simp at hmem
  | (k', v) :: t, hnd, hmem => by
    by_cases hkk : k' = k0
    · subst hkk
      rw [updateAssoc, if_pos rfl]
      simp only [List.map_cons]
      have hhead : ((k' : String), (groupOf rest k').foldl mergeInto (mergeInto v r)) =
          (k', (groupOf (r :: rest) k').foldl mergeInto v) := by
        rw [groupOf_cons_some hk, List.foldl_cons]
      rw [hhead]
      refine congrArg _ (List.map_congr_left ?_)
      intro kv hkv
      have hne : kv.1 ≠ k' := by
        simp only [List.map_cons, List.nodup_cons] at hnd
        intro he
        exact hnd.1 (he ▸ List.mem_map_of_mem Prod.fst hkv)
      have hnc : ¬ mergeKey? r = some kv.1 := by
        rw [hk]
        intro hc
        exact hne (Option.some.inj hc).symm
      rw [groupOf_cons_ne hnc]
    · rw [updateAssoc, if_neg hkk]
      simp only [List.map_cons]
      have hnc : ¬ mergeKey? r = some k' := by
        rw [hk]
        intro hc
        exact hkk (Option.some.inj hc).symm
      have hhead : ((k' : String), (groupOf rest k').foldl mergeInto v) =
          (k', (groupOf (r :: rest) k').foldl mergeInto v) := by
        rw [groupOf_cons_ne hnc]
      rw [hhead]
      refine congrArg _ ?_
      have hnd' : (t.map Prod.fst).Nodup := by
        simp only [List.map_cons, List.nodup_cons] at hnd
        exact hnd.2
      have hmem' : k0 ∈ t.map Prod.fst := by
        simp only [List.map_cons, List.mem_cons] at hmem
        rcases hmem with h | h
        · exact absurd h.symm hkk
        · exact h
      exact updateAssoc_map_upd hk t hnd' hmem'

/-- The invariant of the merger's fold: the accumulated map's entries absorb
their groups from the remaining results, and fresh keys are appended in
first-occurrence order with their groups merged seed-first. -/
theorem mergeFold_spec :
    ∀ (rs : List MResult) (acc : List (String × MResult)),
      (acc.map Prod.fst).Nodup →
      rs.foldl mergeStep acc =
        acc.map (fun kv => (kv.1, (groupOf rs kv.1).foldl mergeInto kv.2)) ++
        (firstDedupAux (rs.filterMap mergeKey?) (acc.map Prod.fst)).map
          (fun k => (k, mergeGroup1 (groupOf rs k)))
  | [], acc, _ => by
    simp [groupOf, firstDedupAux]
  | r :: rest, acc, hnd => by
    rw [List.foldl_cons]
    cases hk : mergeKey? r with
    | none =>
      rw [show mergeStep acc r = acc from by rw [mergeStep, hk]]
      rw [mergeFold_spec rest acc hnd]
      have hg : ∀ k, groupOf (r :: rest) k = groupOf rest k := fun k =>
        groupOf_cons_ne (by simp [hk])
      congr 1
      · exact (List.map_congr_left (fun kv _ => by rw [hg kv.1])).symm
      · rw [List.filterMap_cons_none hk]
        exact (List.map_congr_left (fun k _ => by rw [hg k])).symm
    | some k0 =>
      rw [show mergeStep acc r = updateAssoc acc k0 r from by rw [mergeStep, hk]]
      by_cases hmem : k0 ∈ acc.map Prod.fst
      · have hnd' : ((updateAssoc acc k0 r).map Prod.fst).Nodup := by
          rw [updateAssoc_map_fst hmem]
          exact hnd
        rw [mergeFold_spec rest (updateAssoc acc k0 r) hnd']
        rw [updateAssoc_map_fst hmem]
        congr 1
        · exact updateAssoc_map_upd hk acc hnd hmem
        · rw [List.filterMap_cons_some hk]
          rw [firstDedupAux, if_pos hmem]
          apply List.map_congr_left
          intro k hkin
          have hk0 : k ≠ k0 := fun he =>
            firstDedupAux_not_seen _ _ _ hkin (he ▸ hmem)
          have hnc : ¬ mergeKey? r = some k := by
            rw [hk]
            intro hc
            exact hk0 (Option.some.inj hc).symm
          rw [groupOf_cons_ne hnc]
      · rw [updateAssoc_notMem r hmem]
        have hnd' : ((acc ++ [(k0, r)]).map Prod.fst).Nodup := by
          simp only [List.map_append, List.map_cons, List.map_nil]
          rw [List.nodup_append]
          exact ⟨hnd, List.nodup_singleton k0, by simpa using hmem⟩
        rw [mergeFold_spec rest (acc ++ [(k0, r)]) hnd']
        rw [List.filterMap_cons_some hk]
        rw [firstDedupAux, if_neg hmem]
        simp only [List.map_append, List.map_cons, List.map_nil]
        rw [List.append_assoc]
        congr 1
        · apply List.map_congr_left
          intro kv hkv
          have hne : kv.1 ≠ k0 := fun he =>
            hmem (he ▸ List.mem_map_of_mem Prod.fst hkv)
          have hnc : ¬ mergeKey? r = some kv.1 := by
            rw [hk]
            intro hc
            exact hne (Option.some.inj hc).symm
          rw [groupOf_cons_ne hnc]
        · have hgk0 : mergeGroup1 (groupOf (r :: rest) k0) =
              (groupOf rest k0).foldl mergeInto r := by
            rw [groupOf_cons_some hk]
            rfl
          rw [List.singleton_append, hgk0]
          refine congrArg _ ?_
          rw [firstDedupAux_congr (rest.filterMap mergeKey?)
            (acc.map Prod.fst ++ [k0]) (k0 :: acc.map Prod.fst)
            (by intro x; simp [List.mem_append, List.mem_cons, or_comm])]
          apply List.map_congr_left
          intro k hkin
          have hk0 : k ≠ k0 := fun he => by
            have := firstDedupAux_not_seen _ _ _ hkin
            exact this (he ▸ List.mem_cons_self k0 _)
          have hnc : ¬ mergeKey? r = some k := by
            rw [hk]
            intro hc
            exact hk0 (Option.some.inj hc).symm
          rw [groupOf_cons_ne hnc]

/-- The merger equals its spec-side group-and-fold description. -/
theorem merge_company_results_eq_spec (rs : List MResult) :
    merge_company_results rs = mergeSpecGrouped rs := by
  unfold merge_company_results mergeSpecGrouped firstDedup
  rw [mergeFold_spec rs [] (by simp)]
  simp [List.map_map, Function.comp]

/-- C2.  The cross-message merger groups results by lower-cased trimmed
company name; the first result of a group seeds the merged record; a field
that is unset (falsy) in the merged record and set in a later result is
filled in, an already-populated field is never overwritten; the confidence
becomes the maximum across the group; and the spec's Acme merge example
evaluates exactly as stated. -/
theorem merger_behavior :
    merge_company_results [exCandA, exCandB] = [exMerged] ∧
    (∀ (e n : MResult) (f : MField), (mergeInto e n).fields f =
      if (e.fields f).truthy = false ∧ (n.fields f).truthy = true then n.fields f
      else e.fields f) ∧
    (∀ e n : MResult, (mergeInto e n).confidence_score =
      max e.confidence_score n.confidence_score) ∧
    (∀ (h : MResult) (t : List MResult), (mergeGroup1 (h :: t)).confidence_score =
      t.foldl (fun a r => max a r.confidence_score) h.confidence_score) ∧
    (∀ rs : List MResult, merge_company_results rs = mergeSpecGrouped rs) := by
  have hfield : ∀ (e n : MResult) (f : MField), (mergeInto e n).fields f =
      if (e.fields f).truthy = false ∧ (n.fields f).truthy = true then n.fields f
      else e.fields f := by
    intro e n f
    show mergeFieldStep (e.fields f) (n.fields f) = _
    cases hev : (e.fields f).truthy <;> cases hnv : (n.fields f).truthy <;>
      simp [mergeFieldStep, hev, hnv]
  have hconf : ∀ e n : MResult, (mergeInto e n).confidence_score =
      max e.confidence_score n.confidence_score := by
    intro e n
    show (if n.confidence_score > e.confidence_score then n.confidence_score
      else e.confidence_score) = _
    rcases le_or_lt n.confidence_score e.confidence_score with h | h
    · rw [if_neg (not_lt.mpr h), max_eq_left h]
    · rw [if_pos h, max_eq_right h.le]
  have hgroup : ∀ (h : MResult) (t : List MResult),
      (mergeGroup1 (h :: t)).confidence_score =
      t.foldl (fun a r => max a r.confidence_score) h.confidence_score := by
    intro h t
    show (t.foldl mergeInto h).confidence_score = _
    induction t generalizing h with
    | nil => rfl
    | cons a t ih =>
      rw [List.foldl_cons, List.foldl_cons, ih (mergeInto h a), hconf]
  refine ⟨?_, hfield, hconf, hgroup, merge_company_results_eq_spec⟩
  have hk1 : mergeKey? exCandA = some "acme" := by decide
  have hk2 : mergeKey? exCandB = some "acme" := by decide
  have hstep1 : mergeStep [] exCandA = [("acme", exCandA)] := by
    rw [mergeStep, hk1]
    rfl
  have hstep2 : mergeStep [("acme", exCandA)] exCandB =
      [("acme", mergeInto exCandA exCandB)] := by
    rw [mergeStep, hk2]
    rfl
  have hmi : mergeInto exCandA exCandB = exMerged := by
    refine MResult.extEq rfl ?_ ?_
    · funext f
      cases f <;> decide
    · show (if exCandB.confidence_score > exCandA.confidence_score then
        exCandB.confidence_score else exCandA.confidence_score) = _
      rw [if_pos (by norm_num [exCandA, exCandB])]
      rfl
  rw [merge_company_results, List.foldl_cons, List.foldl_cons, List.foldl_nil,
    hstep1, hstep2, hmi]
  rfl

/-- Adjacent monotonicity and terminal persistence extend along a chain. -/
theorem chainMono {f : ℕ → LStatus}
    (h : ∀ k, lgRank (f k) ≤ lgRank (f (k + 1)) ∧
      (lgTerminal (f k) = true → f (k + 1) = f k)) :
    ∀ i j, i ≤ j → lgRank (f i) ≤ lgRank (f j) ∧
      (lgTerminal (f i) = true → f j = f i) := by
  intro i j hij
  refine Nat.le_induction ?_ ?_ j hij
  · exact ⟨le_refl _, fun _ => rfl⟩
  · intro n hn ih
    refine ⟨le_trans ih.1 (h n).1, fun ht => ?_⟩
    have hfn : f n = f i := ih.2 ht
    rw [(h n).2 (by rw [hfn]; exact ht), hfn]

/-- Node 1 of the LangGraph run: reachable statuses, rank, persistence. -/
theorem lgFact1 : ∀ s s' : LStatus, s ∈ [LStatus.pending] → FilterStepL s s' →
    s' ∈ [LStatus.filtered, LStatus.pending] ∧ lgRank s ≤ lgRank s' ∧
    (lgTerminal s = true → s' = s) := by decide

/-- Node 2. -/
theorem lgFact2 : ∀ s s' : LStatus, s ∈ [LStatus.filtered, LStatus.pending] →
    HtmlStepL s s' →
    s' ∈ [LStatus.filtered, LStatus.pending, LStatus.failed] ∧
    lgRank s ≤ lgRank s' ∧ (lgTerminal s = true → s' = s) := by decide

/-- Node 3. -/
theorem lgFact3 : ∀ s s' : LStatus,
    s ∈ [LStatus.filtered, LStatus.pending, LStatus.failed] → NoiseStepL s s' →
    s' ∈ [LStatus.filtered, LStatus.pending, LStatus.failed] ∧
    lgRank s ≤ lgRank s' ∧ (lgTerminal s = true → s' = s) := by decide

/-- Node 4. -/
theorem lgFact4 : ∀ s s' : LStatus,
    s ∈ [LStatus.filtered, LStatus.pending, LStatus.failed] → TokenStepL s s' →
    s' ∈ [LStatus.filtered, LStatus.cleaned, LStatus.failed] ∧
    lgRank s ≤ lgRank s' ∧ (lgTerminal s = true → s' = s) := by decide

/-- Node 5. -/
theorem lgFact5 : ∀ s s' : LStatus,
    s ∈ [LStatus.filtered, LStatus.cleaned, LStatus.failed] → SectionsStepL s s' →
    s' ∈ [LStatus.filtered, LStatus.cleaned, LStatus.failed] ∧
    lgRank s ≤ lgRank s' ∧ (lgTerminal s = true → s' = s) := by decide

/-- Node 6. -/
theorem lgFact6 : ∀ s s' : LStatus,
    s ∈ [LStatus.filtered, LStatus.cleaned, LStatus.failed] → RegexStepL s s' →
    s' ∈ [LStatus.filtered, LStatus.extracted, LStatus.failed] ∧
    lgRank s ≤ lgRank s' ∧ (lgTerminal s = true → s' = s) := by decide

/-- Node 7. -/
theorem lgFact7 : ∀ s s' : LStatus,
    s ∈ [LStatus.filtered, LStatus.extracted, LStatus.failed] → GeminiStepL s s' →
    s' ∈ [LStatus.filtered, LStatus.extracted, LStatus.failed] ∧
    lgRank s ≤ lgRank s' ∧ (lgTerminal s = true → s' = s) := by decide

/-- Node 8. -/
theorem lgFact8 : ∀ s s' : LStatus,
    s ∈ [LStatus.filtered, LStatus.extracted, LStatus.failed] → ValidateStepL s s' →
    s' ∈ [LStatus.filtered, LStatus.validated, LStatus.needs_review, LStatus.failed] ∧
    lgRank s ≤ lgRank s' ∧ (lgTerminal s = true → s' = s) := by decide

/-- Node 9. -/
theorem lgFact9 : ∀ s s' : LStatus,
    s ∈ [LStatus.filtered, LStatus.validated, LStatus.needs_review, LStatus.failed] →
    DedupStepL s s' →
    s' ∈ [LStatus.filtered, LStatus.validated, LStatus.needs_review,
      LStatus.failed, LStatus.duplicate] ∧
    lgRank s ≤ lgRank s' ∧ (lgTerminal s = true → s' = s) := by decide

/-- Node 10. -/
theorem lgFact10 : ∀ s s' : LStatus,
    s ∈ [LStatus.filtered, LStatus.validated, LStatus.needs_review,
      LStatus.failed, LStatus.duplicate] → MapStepL s s' →
    s' ∈ [LStatus.filtered, LStatus.failed, LStatus.duplicate, LStatus.ready] ∧
    lgRank s ≤ lgRank s' ∧ (lgTerminal s = true → s' = s) := by decide

/-- email_pipeline node 1. -/
theorem epFact1 : ∀ s s' : LStatus, s ∈ [LStatus.pending] → FilterStepE s s' →
    s' ∈ [LStatus.filtered, LStatus.pending] ∧ lgRank s ≤ lgRank s' ∧
    (lgTerminal s = true → s' = s) := by decide

/-- email_pipeline node 2. -/
theorem epFact2 : ∀ s s' : LStatus, s ∈ [LStatus.filtered, LStatus.pending] →
    CleanStepE s s' →
    s' ∈ [LStatus.filtered, LStatus.cleaned, LStatus.failed] ∧
    lgRank s ≤ lgRank s' ∧ (lgTerminal s = true → s' = s) := by decide

/-- email_pipeline node 3. -/
theorem epFact3 : ∀ s s' : LStatus,
    s ∈ [LStatus.filtered, LStatus.cleaned, LStatus.failed] → ExtractStepE s s' →
    s' ∈ [LStatus.filtered, LStatus.extracted, LStatus.failed] ∧
    lgRank s ≤ lgRank s' ∧ (lgTerminal s = true → s' = s) := by decide

/-- email_pipeline node 4. -/
theorem epFact4 : ∀ s s' : LStatus,
    s ∈ [LStatus.filtered, LStatus.extracted, LStatus.failed] → ValidateStepE s s' →
    s' ∈ [LStatus.filtered, LStatus.validated, LStatus.needs_review, LStatus.failed] ∧
    lgRank s ≤ lgRank s' ∧ (lgTerminal s = true → s' = s) := by decide

/-- email_pipeline node 5. -/
theorem epFact5 : ∀ s s' : LStatus,
    s ∈ [LStatus.filtered, LStatus.validated, LStatus.needs_review, LStatus.failed] →
    DedupStepE s s' →
    s' ∈ [LStatus.filtered, LStatus.validated, LStatus.needs_review,
      LStatus.failed, LStatus.duplicate] ∧
    lgRank s ≤ lgRank s' ∧ (lgTerminal s = true → s' = s) := by decide

/-- email_pipeline node 6. -/
theorem epFact6 : ∀ s s' : LStatus,
    s ∈ [LStatus.filtered, LStatus.validated, LStatus.needs_review,
      LStatus.failed, LStatus.duplicate] → MapStepE s s' →
    s' ∈ [LStatus.filtered, LStatus.validated, LStatus.needs_review,
      LStatus.failed, LStatus.duplicate] ∧
    lgRank s ≤ lgRank s' ∧ (lgTerminal s = true → s' = s) := by decide

/-- The LangGraph sequence plateaus at its last status. -/
theorem lgSeqPlateau (t : LGTrace) : ∀ n, t.seq (n + 10) = t.s10
  | 0 => rfl
  | _ + 1 => rfl

/-- The email-pipeline sequence plateaus at its last status. -/
theorem epSeqPlateau (t : EPTrace) : ∀ n, t.seq (n + 6) = t.s6
  | 0 => rfl
  | _ + 1 => rfl

/-- C9.  In both pipelines, observed statuses move only forward through the
defined order (their tier rank never decreases along a run), and once a
terminal status (`filtered`, `failed`, `duplicate`) is set, every later
observation is that same status. -/
theorem pipeline_status_monotone :
    (∀ (tr : LGTrace) (i j : Fin 11), i ≤ j →
      lgRank (tr.at i) ≤ lgRank (tr.at j) ∧
      (lgTerminal (tr.at i) = true → tr.at j = tr.at i)) ∧
    (∀ (tr : EPTrace) (i j : Fin 7), i ≤ j →
      lgRank (tr.at i) ≤ lgRank (tr.at j) ∧
      (lgTerminal (tr.at i) = true → tr.at j = tr.at i)) := by
  constructor
  · intro tr i j hij
    have m0 : tr.s0 ∈ [LStatus.pending] := by rw [tr.init]; exact List.mem_singleton.2 rfl
    have f1 := lgFact1 tr.s0 tr.s1 m0 tr.h1
    have f2 := lgFact2 tr.s1 tr.s2 f1.1 tr.h2
    have f3 := lgFact3 tr.s2 tr.s3 f2.1 tr.h3
    have f4 := lgFact4 tr.s3 tr.s4 f3.1 tr.h4
    have f5 := lgFact5 tr.s4 tr.s5 f4.1 tr.h5
    have f6 := lgFact6 tr.s5 tr.s6 f5.1 tr.h6
    have f7 := lgFact7 tr.s6 tr.s7 f6.1 tr.h7
    have f8 := lgFact8 tr.s7 tr.s8 f7.1 tr.h8
    have f9 := lgFact9 tr.s8 tr.s9 f8.1 tr.h9
    have f10 := lgFact10 tr.s9 tr.s10 f9.1 tr.h10
    have hadj : ∀ k, lgRank (tr.seq k) ≤ lgRank (tr.seq (k + 1)) ∧
        (lgTerminal (tr.seq k) = true → tr.seq (k + 1) = tr.seq k) := by
      intro k
      match k with
      | 0 => exact f1.2
      | 1 => exact f2.2
      | 2 => exact f3.2
      | 3 => exact f4.2
      | 4 => exact f5.2
      | 5 => exact f6.2
      | 6 => exact f7.2
      | 7 => exact f8.2
      | 8 => exact f9.2
      | 9 => exact f10.2
      | n + 10 =>
        have e1 : tr.seq (n + 10) = tr.s10 := lgSeqPlateau tr n
        have e2 : tr.seq (n + 10 + 1) = tr.s10 := lgSeqPlateau tr (n + 1)
        exact ⟨by rw [e1, e2], fun _ => by rw [e1, e2]⟩
    have hat : ∀ x : Fin 11, tr.at x = tr.seq x.1 := by
      intro x
      fin_cases x <;> rfl
    rw [hat i, hat j]
    exact chainMono hadj i.1 j.1 hij
  · intro tr i j hij
    have m0 : tr.s0 ∈ [LStatus.pending] := by rw [tr.init]; exact List.mem_singleton.2 rfl
    have f1 := epFact1 tr.s0 tr.s1 m0 tr.h1
    have f2 := epFact2 tr.s1 tr.s2 f1.1 tr.h2
    have f3 := epFact3 tr.s2 tr.s3 f2.1 tr.h3
    have f4 := epFact4 tr.s3 tr.s4 f3.1 tr.h4
    have f5 := epFact5 tr.s4 tr.s5 f4.1 tr.h5
    have f6 := epFact6 tr.s5 tr.s6 f5.1 tr.h6
    have hadj : ∀ k, lgRank (tr.seq k) ≤ lgRank (tr.seq (k + 1)) ∧
        (lgTerminal (tr.seq k) = true → tr.seq (k + 1) = tr.seq k) := by
      intro k
      match k with
      | 0 => exact f1.2
      | 1 => exact f2.2
      | 2 => exact f3.2
      | 3 => exact f4.2
      | 4 => exact f5.2
      | 5 => exact f6.2
      | n + 6 =>
        have e1 : tr.seq (n + 6) = tr.s6 := epSeqPlateau tr n
        have e2 : tr.seq (n + 6 + 1) = tr.s6 := epSeqPlateau tr (n + 1)
        exact ⟨by rw [e1, e2], fun _ => by rw [e1, e2]⟩
    have hat : ∀ x : Fin 7, tr.at x = tr.seq x.1 := by
      intro x
      fin_cases x <;> rfl
    rw [hat i, hat j]
    exact chainMono hadj i.1 j.1 hij

/-- Witness for C9: the successful traces at positions 0 and last. -/
theorem pipeline_status_monotone_witness :
    (lgRank (lgTraceOk.at 0) ≤ lgRank (lgTraceOk.at 10) ∧
      (lgTerminal (lgTraceOk.at 0) = true → lgTraceOk.at 10 = lgTraceOk.at 0)) ∧
    (lgRank (epTraceOk.at 0) ≤ lgRank (epTraceOk.at 6) ∧
      (lgTerminal (epTraceOk.at 0) = true → epTraceOk.at 6 = epTraceOk.at 0)) :=
  ⟨pipeline_status_monotone.1 lgTraceOk 0 10 (by decide),
   pipeline_status_monotone.2 epTraceOk 0 6 (by decide)⟩

end Placement
